import Mathlib

/-!
Verification of the gameplay core of pacman.c (CS2080 fork).

This file shallowly embeds the tick-driven gameplay simulation of
src/pacman.c-main/pacman.c: the time-trigger vocabulary, the spatial and
movement helpers, the ghost AI state machine, the dot-counter bookkeeping and
the central per-tick actor update function.  Machine integers are modelled as
Nat (unsigned) or Int (signed), with an explicit `% 2^32` (resp. `% 256`,
`% 2^16`) wherever the C code performs wrapping unsigned arithmetic.
The theorems below settle the frozen claims about this code.
-/

namespace Pacman

/-! ## Global constants (from the #define block of pacman.c) -/

/-- Modulus of C's uint32_t arithmetic. -/
def U32_MOD : Nat := 4294967296

/-- Modulus of C's uint8_t arithmetic. -/
def U8_MOD : Nat := 256

/-- Modulus of C's uint16_t arithmetic. -/
def U16_MOD : Nat := 65536

/-- DISABLED_TICKS, the magic tick value (0xFFFFFFFF) for a disabled timer. -/
def DISABLED_TICKS : Nat := 4294967295

/-- TILE_WIDTH and TILE_HEIGHT are both 8 pixels. -/
def TILE_WIDTH : Int := 8

/-- DISPLAY_TILES_X: width of the tile buffer. -/
def DISPLAY_TILES_X : Int := 28

/-- DISPLAY_TILES_Y: height of the tile buffer. -/
def DISPLAY_TILES_Y : Int := 36

/-- DISPLAY_PIXELS_X = DISPLAY_TILES_X * TILE_WIDTH. -/
def DISPLAY_PIXELS_X : Int := 224

/-- ANTEPORTAS_X: pixel x position of the ghost house enter/leave point. -/
def ANTEPORTAS_X : Int := 112

/-- ANTEPORTAS_Y: pixel y position of the ghost house enter/leave point. -/
def ANTEPORTAS_Y : Int := 116

/-- NUM_DOTS: 240 small dots + 4 pills. -/
def NUM_DOTS : Nat := 244

/-- GHOST_EATEN_FREEZE_TICKS. -/
def GHOST_EATEN_FREEZE_TICKS : Nat := 60

/-- PACMAN_EATEN_TICKS. -/
def PACMAN_EATEN_TICKS : Nat := 60

/-- PACMAN_DEATH_TICKS. -/
def PACMAN_DEATH_TICKS : Nat := 150

/-- FRUITACTIVE_TICKS: number of ticks a bonus fruit is shown. -/
def FRUITACTIVE_TICKS : Nat := 600

/-- TILE_DOT tile code. -/
def TILE_DOT : Nat := 0x10

/-- TILE_PILL tile code. -/
def TILE_PILL : Nat := 0x14

/-- TILE_SPACE tile code. -/
def TILE_SPACE : Nat := 0x40

/-- TILE_DOOR: the ghost-house door tile code. -/
def TILE_DOOR : Nat := 0xCF

/-! ## Trigger system (pacman.c lines 884-956)

A trigger holds a specific game tick when an action should be started.  The
query functions read the current tick `state.timing.tick`; here that tick is
passed explicitly as `now_tick`.  `state.timing.tick` is a uint32_t, so the
arming operations wrap modulo 2^32 exactly as C unsigned addition does. -/

/-- The trigger_t struct: a single (uint32) tick value. -/
structure Trigger where
  tick : Nat
deriving DecidableEq

/-- C `start`: set time trigger to the next game tick (now_tick + 1). -/
def start (now_tick : Nat) : Trigger :=
  ⟨(now_tick + 1) % U32_MOD⟩

/-- C `start_after`: set time trigger to a future tick (now_tick + ticks). -/
def start_after (now_tick : Nat) (ticks : Nat) : Trigger :=
  ⟨(now_tick + ticks) % U32_MOD⟩

/-- C `disabled_timer`: return a disabled time trigger; `disable(t)` stores
the same sentinel in place. -/
def disabled_timer : Trigger :=
  ⟨DISABLED_TICKS⟩

/-- C `now`: check if a time trigger is triggered (tick equality). -/
def now (now_tick : Nat) (t : Trigger) : Bool :=
  t.tick == now_tick

/-- C `since`: number of ticks since the trigger was triggered, or the
DISABLED_TICKS sentinel when the trigger tick lies in the future. -/
def since (now_tick : Nat) (t : Trigger) : Nat :=
  if t.tick ≤ now_tick then now_tick - t.tick else DISABLED_TICKS

/-- C `between`: trigger armed and `begin <= since < end`. -/
def between (now_tick : Nat) (t : Trigger) (tbegin tend : Nat) : Bool :=
  if t.tick ≠ DISABLED_TICKS then
    let ticks := since now_tick t
    (tbegin ≤ ticks) && (ticks < tend)
  else
    false

/-- C `after_once`: trigger was triggered exactly N ticks ago. -/
def after_once (now_tick : Nat) (t : Trigger) (ticks : Nat) : Bool :=
  since now_tick t == ticks

/-- C `after`: trigger was triggered N or more ticks ago. -/
def after (now_tick : Nat) (t : Trigger) (ticks : Nat) : Bool :=
  let s := since now_tick t
  if s ≠ DISABLED_TICKS then ticks ≤ s else false

/-- C `before`: same as between(t, 0, ticks). -/
def before (now_tick : Nat) (t : Trigger) (ticks : Nat) : Bool :=
  let s := since now_tick t
  if s ≠ DISABLED_TICKS then s < ticks else false

/-! ## 2D integer vectors and directions (pacman.c lines 267-274, 1001-1044) -/

/-- The int2_t struct (16-bit coordinates; the values that occur stay far from
the int16 range so plain Int is a faithful model). -/
structure Int2 where
  x : Int
  y : Int
deriving DecidableEq

/-- The dir_t enum: right, down, left, up. -/
inductive Dir where
  | RIGHT
  | DOWN
  | LEFT
  | UP
deriving DecidableEq

/-- C `add_i2`. -/
def add_i2 (v0 v1 : Int2) : Int2 :=
  ⟨v0.x + v1.x, v0.y + v1.y⟩

/-- C `sub_i2`. -/
def sub_i2 (v0 v1 : Int2) : Int2 :=
  ⟨v0.x - v1.x, v0.y - v1.y⟩

/-- C `mul_i2`. -/
def mul_i2 (v : Int2) (s : Int) : Int2 :=
  ⟨v.x * s, v.y * s⟩

/-- C `squared_distance_i2`. -/
def squared_distance_i2 (v0 v1 : Int2) : Int :=
  (v1.x - v0.x) * (v1.x - v0.x) + (v1.y - v0.y) * (v1.y - v0.y)

/-- C `equal_i2`. -/
def equal_i2 (v0 v1 : Int2) : Bool :=
  (v0.x == v1.x) && (v0.y == v1.y)

/-- C `nearequal_i2` (componentwise absolute difference at most tolerance). -/
def nearequal_i2 (v0 v1 : Int2) (tolerance : Int) : Bool :=
  ((v1.x - v0.x).natAbs ≤ tolerance.toNat) && ((v1.y - v0.y).natAbs ≤ tolerance.toNat)

/-- C `dir_to_vec`: direction to movement vector. -/
def dir_to_vec : Dir → Int2
  | .RIGHT => ⟨1, 0⟩
  | .DOWN => ⟨0, 1⟩
  | .LEFT => ⟨-1, 0⟩
  | .UP => ⟨0, -1⟩

/-- C `reverse_dir`. -/
def reverse_dir : Dir → Dir
  | .RIGHT => .LEFT
  | .DOWN => .UP
  | .LEFT => .RIGHT
  | .UP => .DOWN

/-- C `dist_to_tile_mid`: distance of a pixel coordinate to the midpoint of
its tile (C `%` is truncated remainder, Int.tmod). -/
def dist_to_tile_mid (pos : Int2) : Int2 :=
  ⟨4 - Int.tmod pos.x TILE_WIDTH, 4 - Int.tmod pos.y TILE_WIDTH⟩

/-- C `pixel_to_tile_pos` (C integer division truncates toward zero). -/
def pixel_to_tile_pos (pix_pos : Int2) : Int2 :=
  ⟨Int.tdiv pix_pos.x TILE_WIDTH, Int.tdiv pix_pos.y TILE_WIDTH⟩

/-- C `clamped_tile_pos`: clamp tile pos to valid playfield coords
(x in [0,27], y in [3,33]). -/
def clamped_tile_pos (tile_pos : Int2) : Int2 :=
  let x := if tile_pos.x < 0 then 0
           else if DISPLAY_TILES_X ≤ tile_pos.x then DISPLAY_TILES_X - 1
           else tile_pos.x
  let y := if tile_pos.y < 3 then 3
           else if DISPLAY_TILES_Y - 2 ≤ tile_pos.y then DISPLAY_TILES_Y - 3
           else tile_pos.y
  ⟨x, y⟩

/-! ## Tile-grid queries (pacman.c lines 1325-1356)

The 36x28 video_ram tile buffer is modelled as a function from (x, y)
coordinates to tile codes. -/

/-- The video_ram tile-code buffer, as a function of (x, y). -/
def VRam : Type := Int → Int → Nat

/-- C `tile_code_at`: video_ram[y][x]. -/
def tile_code_at (vram : VRam) (tile_pos : Int2) : Nat :=
  vram tile_pos.x tile_pos.y

/-- Write one tile code into the buffer (the effect of C `vid_tile`). -/
def vram_set (vram : VRam) (tile_pos : Int2) (code : Nat) : VRam :=
  fun x y => if x = tile_pos.x ∧ y = tile_pos.y then code else vram x y

/-- C `is_blocking_tile`: tile codes 0xC0 and above (walls and door). -/
def is_blocking_tile (vram : VRam) (tile_pos : Int2) : Bool :=
  0xC0 ≤ tile_code_at vram tile_pos

/-- C `is_dot`. -/
def is_dot (vram : VRam) (tile_pos : Int2) : Bool :=
  tile_code_at vram tile_pos == TILE_DOT

/-- C `is_pill`. -/
def is_pill (vram : VRam) (tile_pos : Int2) : Bool :=
  tile_code_at vram tile_pos == TILE_PILL

/-- C `is_tunnel`: the teleport row y = 17, x <= 5 or x >= 22. -/
def is_tunnel (tile_pos : Int2) : Bool :=
  (tile_pos.y == 17) && ((tile_pos.x ≤ 5) || (22 ≤ tile_pos.x))

/-- C `is_redzone`: the two bands where upward ghost movement is forbidden. -/
def is_redzone (tile_pos : Int2) : Bool :=
  (11 ≤ tile_pos.x) && (tile_pos.x ≤ 16) && ((tile_pos.y == 14) || (tile_pos.y == 26))

/-! ## Movement engine (pacman.c lines 1358-1415) -/

/-- C `can_move`: test if movement from a pixel position in a wanted direction
is possible. -/
def can_move (vram : VRam) (pos : Int2) (wanted_dir : Dir) (allow_cornering : Bool) : Bool :=
  let dir_vec := dir_to_vec wanted_dir
  let dist_mid := dist_to_tile_mid pos
  let move_dist_mid := if dir_vec.y ≠ 0 then dist_mid.y else dist_mid.x
  let perp_dist_mid := if dir_vec.y ≠ 0 then dist_mid.x else dist_mid.y
  let tile_pos := pixel_to_tile_pos pos
  let check_pos := clamped_tile_pos (add_i2 tile_pos dir_vec)
  let is_blocked := is_blocking_tile vram check_pos
  if ((!allow_cornering) && (perp_dist_mid != 0)) || (is_blocked && (move_dist_mid == 0)) then
    false
  else
    true

/-- The final wraparound step of C `move`: wrap the x position around at the
horizontal pixel boundary (only possible in the teleport tunnel). -/
def wrap_pixel_x (pos : Int2) : Int2 :=
  if pos.x < 0 then ⟨DISPLAY_PIXELS_X - 1, pos.y⟩
  else if DISPLAY_PIXELS_X ≤ pos.x then ⟨0, pos.y⟩
  else pos

/-- C `move`: advance one pixel along dir, optionally drag the perpendicular
axis toward the tile centerline, then wrap the x position at the horizontal
pixel boundary (no blocking check). -/
def move (pos : Int2) (dir : Dir) (allow_cornering : Bool) : Int2 :=
  let dir_vec := dir_to_vec dir
  let pos1 := add_i2 pos dir_vec
  let pos2 :=
    if allow_cornering then
      let dist_mid := dist_to_tile_mid pos1
      if dir_vec.x ≠ 0 then
        if dist_mid.y < 0 then ⟨pos1.x, pos1.y - 1⟩
        else if 0 < dist_mid.y then ⟨pos1.x, pos1.y + 1⟩
        else pos1
      else if dir_vec.y ≠ 0 then
        if dist_mid.x < 0 then ⟨pos1.x - 1, pos1.y⟩
        else if 0 < dist_mid.x then ⟨pos1.x + 1, pos1.y⟩
        else pos1
      else pos1
    else pos1
  wrap_pixel_x pos2

/-! ## Game data model (pacman.c lines 276-359, 427-493) -/

/-- The ghosttype_t enum. -/
inductive GhostType where
  | BLINKY
  | PINKY
  | INKY
  | CLYDE
deriving DecidableEq

/-- The ghoststate_t enum. -/
inductive GhostState where
  | NONE
  | CHASE
  | SCATTER
  | FRIGHTENED
  | EYES
  | HOUSE
  | LEAVEHOUSE
  | ENTERHOUSE
deriving DecidableEq

/-- The fruit_t enum. -/
inductive Fruit where
  | FRUIT_NONE
  | FRUIT_CHERRIES
  | FRUIT_STRAWBERRY
  | FRUIT_PEACH
  | FRUIT_APPLE
  | FRUIT_GRAPES
  | FRUIT_GALAXIAN
  | FRUIT_BELL
  | FRUIT_KEY
deriving DecidableEq

/-- The actor_t struct: common state for pacman and ghosts. -/
structure Actor where
  dir : Dir
  pos : Int2
  anim_tick : Nat
deriving DecidableEq

/-- The ghost_t struct. -/
structure Ghost where
  actor : Actor
  type : GhostType
  next_dir : Dir
  target_pos : Int2
  state : GhostState
  frightened : Trigger
  eaten : Trigger
  dot_counter : Nat
  dot_limit : Nat
deriving DecidableEq

/-- The pacman_t struct. -/
structure PacmanAgent where
  actor : Actor
deriving DecidableEq

/-- One input block (state.input1 / state.input2): the four direction keys
sampled by `input_dir`. -/
structure InputState where
  up : Bool
  down : Bool
  left : Bool
  right : Bool
deriving DecidableEq

/-- FREEZETYPE_EAT_GHOST bit. -/
def FREEZETYPE_EAT_GHOST : Nat := 4

/-- FREEZETYPE_DEAD bit. -/
def FREEZETYPE_DEAD : Nat := 8

/-- The parts of the global `state` struct that the gameplay tick reads and
writes: `state.timing.tick`, `state.game`, `state.input1`, `state.input2` and
the video_ram tile buffer of `state.gfx`.  Sound and color-ram effects are
presentation-only outputs and are not part of the model. -/
structure GameState where
  tick : Nat
  xorshift : Nat
  vram : VRam
  ready_started : Trigger
  round_started : Trigger
  round_won : Trigger
  game_over : Trigger
  dot_eaten : Trigger
  pill_eaten : Trigger
  ghost_eaten : Trigger
  pacman_eaten : Trigger
  fruit_eaten : Trigger
  force_leave_house : Trigger
  fruit_active : Trigger
  freeze : Nat
  round : Nat
  score : Nat
  num_lives : Int
  num_ghosts_eaten : Nat
  num_dots_eaten : Nat
  global_dot_counter_active : Bool
  global_dot_counter : Nat
  ghosts : GhostType → Ghost
  pacman1 : PacmanAgent
  pacman2 : PacmanAgent
  player2 : Bool
  active_fruit : Fruit
  input1 : InputState
  input2 : InputState

/-- Replace one ghost in the ghost table. -/
def set_ghost (gs : GameState) (t : GhostType) (g : Ghost) : GameState :=
  { gs with ghosts := fun u => if u = t then g else gs.ghosts u }

/-! ## Per-ghost constant tables (pacman.c lines 554-573) -/

/-- C `ghost_scatter_targets` (tile coords). -/
def ghost_scatter_targets : GhostType → Int2
  | .BLINKY => ⟨25, 0⟩
  | .PINKY => ⟨2, 0⟩
  | .INKY => ⟨27, 34⟩
  | .CLYDE => ⟨0, 34⟩

/-- C `ghost_starting_pos` (pixel coords). -/
def ghost_starting_pos : GhostType → Int2
  | .BLINKY => ⟨112, 116⟩
  | .PINKY => ⟨112, 140⟩
  | .INKY => ⟨96, 140⟩
  | .CLYDE => ⟨128, 140⟩

/-- C `ghost_house_target_pos` (pixel coords). -/
def ghost_house_target_pos : GhostType → Int2
  | .BLINKY => ⟨112, 140⟩
  | .PINKY => ⟨112, 140⟩
  | .INKY => ⟨96, 140⟩
  | .CLYDE => ⟨128, 140⟩

/-! ## Level specifications (pacman.c lines 601-635, 875-882) -/

/-- The levelspec_t struct. -/
structure LevelSpec where
  bonus_fruit : Fruit
  bonus_score : Nat
  fright_ticks : Nat
deriving DecidableEq

/-- C `levelspec_table` (MAX_LEVELSPEC = 21 entries). -/
def levelspec_table : List LevelSpec :=
  [⟨.FRUIT_CHERRIES, 10, 360⟩,
   ⟨.FRUIT_STRAWBERRY, 30, 300⟩,
   ⟨.FRUIT_PEACH, 50, 240⟩,
   ⟨.FRUIT_PEACH, 50, 180⟩,
   ⟨.FRUIT_APPLE, 70, 120⟩,
   ⟨.FRUIT_APPLE, 70, 300⟩,
   ⟨.FRUIT_GRAPES, 100, 120⟩,
   ⟨.FRUIT_GRAPES, 100, 120⟩,
   ⟨.FRUIT_GALAXIAN, 200, 60⟩,
   ⟨.FRUIT_GALAXIAN, 200, 300⟩,
   ⟨.FRUIT_BELL, 300, 120⟩,
   ⟨.FRUIT_BELL, 300, 60⟩,
   ⟨.FRUIT_KEY, 500, 60⟩,
   ⟨.FRUIT_KEY, 500, 180⟩,
   ⟨.FRUIT_KEY, 500, 60⟩,
   ⟨.FRUIT_KEY, 500, 60⟩,
   ⟨.FRUIT_KEY, 500, 1⟩,
   ⟨.FRUIT_KEY, 500, 60⟩,
   ⟨.FRUIT_KEY, 500, 1⟩,
   ⟨.FRUIT_KEY, 500, 1⟩,
   ⟨.FRUIT_KEY, 500, 1⟩]

/-- C `levelspec`: clamp the round to the last table entry and index. -/
def levelspec (round : Nat) : LevelSpec :=
  levelspec_table.getD (if 21 ≤ round then 20 else round) ⟨.FRUIT_NONE, 0, 0⟩

/-! ## Helper functions of the gameplay code -/

/-- C `xorshift32` on the uint32 generator state (returns the new state,
which is also the drawn value). -/
def xorshift32 (x : Nat) : Nat :=
  let x1 := (x ^^^ (x <<< 13)) % U32_MOD
  let x2 := x1 ^^^ (x1 >>> 17)
  (x2 ^^^ (x2 <<< 5)) % U32_MOD

/-- C `input_dir`: current input as a direction, input1 keys first, then
input2 keys, else the default. -/
def input_dir (gs : GameState) (default_dir : Dir) : Dir :=
  if gs.input1.up then .UP
  else if gs.input1.down then .DOWN
  else if gs.input1.right then .RIGHT
  else if gs.input1.left then .LEFT
  else if gs.input2.up then .UP
  else if gs.input2.down then .DOWN
  else if gs.input2.right then .RIGHT
  else if gs.input2.left then .LEFT
  else default_dir

/-- C `game_pacman_should_move`: stall 1 tick after a dot, 3 ticks after a
pill, otherwise move on 7 of every 8 ticks. -/
def game_pacman_should_move (gs : GameState) : Bool :=
  if now gs.tick gs.dot_eaten then false
  else if since gs.tick gs.pill_eaten < 3 then false
  else gs.tick % 8 != 0

/-- C `game_ghost_speed`: number of pixels a ghost moves this tick. -/
def game_ghost_speed (gs : GameState) (ghost : Ghost) : Nat :=
  match ghost.state with
  | .HOUSE => gs.tick % 2
  | .LEAVEHOUSE => gs.tick % 2
  | .FRIGHTENED => gs.tick % 2
  | .EYES => if gs.tick % 2 = 1 then 1 else 2
  | .ENTERHOUSE => if gs.tick % 2 = 1 then 1 else 2
  | _ =>
    if is_tunnel (pixel_to_tile_pos ghost.actor.pos) then
      if (gs.tick * 2) % 4 ≠ 0 then 1 else 0
    else
      if gs.tick % 7 ≠ 0 then 1 else 0

/-- C `game_scatter_chase_phase`: the global scatter/chase schedule measured
from the round_started trigger. -/
def game_scatter_chase_phase (gs : GameState) : GhostState :=
  let t := since gs.tick gs.round_started
  if t < 7 * 60 then .SCATTER
  else if t < 27 * 60 then .CHASE
  else if t < 34 * 60 then .SCATTER
  else if t < 54 * 60 then .CHASE
  else if t < 59 * 60 then .SCATTER
  else if t < 79 * 60 then .CHASE
  else if t < 84 * 60 then .SCATTER
  else .CHASE

/-! ## Ghost AI state machine (pacman.c lines 1952-2224) -/

/-- First half of C `game_update_ghost_state`: compute the new state and the
side effects on the game state (re-arming force_leave_house, deactivating the
global dot counter).  Returns (updated game state, new ghost state). -/
def ghost_new_state (gs : GameState) (ghost : Ghost) : GameState × GhostState :=
  match ghost.state with
  | .EYES =>
    if nearequal_i2 ghost.actor.pos ⟨ANTEPORTAS_X, ANTEPORTAS_Y⟩ 1 then
      (gs, .ENTERHOUSE)
    else
      (gs, ghost.state)
  | .ENTERHOUSE =>
    if nearequal_i2 ghost.actor.pos (ghost_house_target_pos ghost.type) 1 then
      (gs, .LEAVEHOUSE)
    else
      (gs, ghost.state)
  | .HOUSE =>
    if after_once gs.tick gs.force_leave_house (4 * 60) then
      ({ gs with force_leave_house := start gs.tick }, .LEAVEHOUSE)
    else if gs.global_dot_counter_active then
      if ghost.type = .PINKY ∧ gs.global_dot_counter = 7 then
        (gs, .LEAVEHOUSE)
      else if ghost.type = .INKY ∧ gs.global_dot_counter = 17 then
        (gs, .LEAVEHOUSE)
      else if ghost.type = .CLYDE ∧ gs.global_dot_counter = 32 then
        ({ gs with global_dot_counter_active := false }, .LEAVEHOUSE)
      else
        (gs, ghost.state)
    else if ghost.dot_counter = ghost.dot_limit then
      (gs, .LEAVEHOUSE)
    else
      (gs, ghost.state)
  | .LEAVEHOUSE =>
    if ghost.actor.pos.y = ANTEPORTAS_Y then (gs, .SCATTER) else (gs, ghost.state)
  | _ =>
    if before gs.tick ghost.frightened (levelspec gs.round).fright_ticks then
      (gs, .FRIGHTENED)
    else
      (gs, game_scatter_chase_phase gs)

/-- C `game_update_ghost_state`: compute the new state and, when it differs
from the current one, run the transition actions (which switch on the state
being left). -/
def game_update_ghost_state (gs : GameState) (ghost : Ghost) : GameState × Ghost :=
  let res := ghost_new_state gs ghost
  let gs1 := res.1
  let new_state := res.2
  if new_state ≠ ghost.state then
    let ghost1 :=
      match ghost.state with
      | .LEAVEHOUSE =>
        { ghost with next_dir := .LEFT, actor := { ghost.actor with dir := .LEFT } }
      | .ENTERHOUSE =>
        { ghost with frightened := disabled_timer }
      | .FRIGHTENED =>
        ghost
      | .SCATTER =>
        { ghost with next_dir := reverse_dir ghost.actor.dir }
      | .CHASE =>
        { ghost with next_dir := reverse_dir ghost.actor.dir }
      | _ =>
        ghost
    (gs1, { ghost1 with state := new_state })
  else
    (gs1, ghost)

/-- C `game_update_ghost_target`: per-state target selection.  The CHASE case
keeps the C code's two successive assignments for Blinky and Pinky (the
second overwrites the first).  The FRIGHTENED case draws two xorshift values
(modelled left to right) and so updates the generator state. -/
def game_update_ghost_target (gs : GameState) (ghost : Ghost) : GameState × Ghost :=
  match ghost.state with
  | .SCATTER =>
    (gs, { ghost with target_pos := ghost_scatter_targets ghost.type })
  | .CHASE =>
    let pm1 := gs.pacman1.actor
    let pm1_pos := pixel_to_tile_pos pm1.pos
    let pm1_dir := dir_to_vec pm1.dir
    let pm2 := gs.pacman2.actor
    let pm2_pos := pixel_to_tile_pos pm2.pos
    let pm2_dir := dir_to_vec pm2.dir
    let pos :=
      match ghost.type with
      | .BLINKY =>
        let p := pm1_pos
        let p := pm2_pos
        p
      | .PINKY =>
        let p := add_i2 pm1_pos (mul_i2 pm1_dir 4)
        let p := add_i2 pm2_pos (mul_i2 pm2_dir 4)
        p
      | .INKY =>
        let blinky_pos := pixel_to_tile_pos (gs.ghosts .BLINKY).actor.pos
        let p := add_i2 pm1_pos (mul_i2 pm1_dir 2)
        let d := sub_i2 p blinky_pos
        add_i2 blinky_pos (mul_i2 d 2)
      | .CLYDE =>
        if 64 < squared_distance_i2 (pixel_to_tile_pos ghost.actor.pos) pm1_pos then
          pm1_pos
        else if 64 < squared_distance_i2 (pixel_to_tile_pos ghost.actor.pos) pm2_pos then
          pm2_pos
        else
          ghost_scatter_targets .CLYDE
    (gs, { ghost with target_pos := pos })
  | .FRIGHTENED =>
    let x1 := xorshift32 gs.xorshift
    let x2 := xorshift32 x1
    ({ gs with xorshift := x2 },
     { ghost with target_pos := ⟨(x1 % 28 : Nat), (x2 % 36 : Nat)⟩ })
  | .EYES =>
    (gs, { ghost with target_pos := ⟨13, 14⟩ })
  | _ =>
    (gs, ghost)

/-- One candidate direction test of the target-distance search in
C `game_update_ghost_dir` (the body of its for loop). -/
def ghost_dir_try (vram : VRam) (actor_dir : Dir) (ghost_state : GhostState)
    (lookahead_pos target_pos : Int2) (acc : Int × Dir) (dir : Dir) : Int × Dir :=
  if is_redzone lookahead_pos ∧ dir = .UP ∧ ghost_state ≠ .EYES then
    acc
  else
    let revdir := reverse_dir dir
    let test_pos := clamped_tile_pos (add_i2 lookahead_pos (dir_to_vec dir))
    if revdir ≠ actor_dir ∧ ¬ (is_blocking_tile vram test_pos = true) then
      let dist := squared_distance_i2 test_pos target_pos
      if dist < acc.1 then (dist, dir) else acc
    else
      acc

/-- C `game_update_ghost_dir`: compute the ghost's next direction; the Bool
result is the force_move flag (true for the in-house movement states that
ignore blocking tiles). -/
def game_update_ghost_dir (gs : GameState) (ghost : Ghost) : Ghost × Bool :=
  if ghost.state = .HOUSE then
    let nd :=
      if ghost.actor.pos.y ≤ 17 * 8 then Dir.DOWN
      else if 18 * 8 ≤ ghost.actor.pos.y then Dir.UP
      else ghost.next_dir
    ({ ghost with next_dir := nd, actor := { ghost.actor with dir := nd } }, true)
  else if ghost.state = .LEAVEHOUSE then
    let pos := ghost.actor.pos
    let nd :=
      if pos.x = ANTEPORTAS_X then
        if ANTEPORTAS_Y < pos.y then Dir.UP else ghost.next_dir
      else
        let mid_y : Int := 17 * 8 + 4
        if mid_y < pos.y then Dir.UP
        else if pos.y < mid_y then Dir.DOWN
        else if ANTEPORTAS_X < pos.x then Dir.LEFT else Dir.RIGHT
    ({ ghost with next_dir := nd, actor := { ghost.actor with dir := nd } }, true)
  else if ghost.state = .ENTERHOUSE then
    let pos := ghost.actor.pos
    let tile_pos := pixel_to_tile_pos pos
    let tgt_pos := ghost_house_target_pos ghost.type
    let nd :=
      if tile_pos.y = 14 then
        if pos.x ≠ ANTEPORTAS_X then
          if pos.x < ANTEPORTAS_X then Dir.RIGHT else Dir.LEFT
        else
          Dir.DOWN
      else if pos.y = tgt_pos.y then
        if pos.x < tgt_pos.x then Dir.RIGHT else Dir.LEFT
      else
        ghost.next_dir
    ({ ghost with next_dir := nd, actor := { ghost.actor with dir := nd } }, true)
  else
    let dist_to_mid := dist_to_tile_mid ghost.actor.pos
    if dist_to_mid.x = 0 ∧ dist_to_mid.y = 0 then
      let dir0 := ghost.next_dir
      let dir_vec := dir_to_vec dir0
      let lookahead_pos := add_i2 (pixel_to_tile_pos ghost.actor.pos) dir_vec
      let res := [Dir.UP, Dir.LEFT, Dir.DOWN, Dir.RIGHT].foldl
        (ghost_dir_try gs.vram dir0 ghost.state lookahead_pos ghost.target_pos)
        ((100000 : Int), ghost.next_dir)
      ({ ghost with next_dir := res.2, actor := { ghost.actor with dir := dir0 } }, false)
    else
      (ghost, false)

/-! ## Dot bookkeeping (pacman.c lines 2226-2284) -/

/-- C `game_update_ghosthouse_dot_counters`: in global mode bump the shared
counter, otherwise bump the dot counter of the first ghost (in type order)
still below its dot limit. -/
def game_update_ghosthouse_dot_counters (gs : GameState) : GameState :=
  if gs.global_dot_counter_active then
    { gs with global_dot_counter := (gs.global_dot_counter + 1) % U8_MOD }
  else
    let bump := fun (t : GhostType) =>
      set_ghost gs t
        { gs.ghosts t with dot_counter := ((gs.ghosts t).dot_counter + 1) % U16_MOD }
    if (gs.ghosts .BLINKY).dot_counter < (gs.ghosts .BLINKY).dot_limit then bump .BLINKY
    else if (gs.ghosts .PINKY).dot_counter < (gs.ghosts .PINKY).dot_limit then bump .PINKY
    else if (gs.ghosts .INKY).dot_counter < (gs.ghosts .INKY).dot_limit then bump .INKY
    else if (gs.ghosts .CLYDE).dot_counter < (gs.ghosts .CLYDE).dot_limit then bump .CLYDE
    else gs

/-- C `game_update_dots_eaten`: bump num_dots_eaten, arm round_won when all
dots are eaten, arm fruit_active at 70 and 170 dots. -/
def game_update_dots_eaten (gs : GameState) : GameState :=
  let gs1 := { gs with num_dots_eaten := (gs.num_dots_eaten + 1) % U8_MOD }
  if gs1.num_dots_eaten = NUM_DOTS then
    { gs1 with round_won := start gs1.tick }
  else if gs1.num_dots_eaten = 70 ∨ gs1.num_dots_eaten = 170 then
    { gs1 with fruit_active := start gs1.tick }
  else
    gs1

/-! ## Per-tick actor update (pacman.c lines 2286-2482)

C `game_update_actors` is one long function; it is embedded here as the
composition of named pieces, each of which mirrors one block of the source:
the player-1 block (lines 2289-2378), the player-2 block (lines 2381-2461)
and the ghost loop (lines 2464-2481). -/

/-- C `fruit_score_tiles` (tile codes of the 4-tile bonus score display). -/
def fruit_score_tiles (fruit : Fruit) (i : Nat) : Nat :=
  let row : List Nat :=
    match fruit with
    | .FRUIT_NONE => [0x40, 0x40, 0x40, 0x40]
    | .FRUIT_CHERRIES => [0x40, 0x81, 0x85, 0x40]
    | .FRUIT_STRAWBERRY => [0x40, 0x82, 0x85, 0x40]
    | .FRUIT_PEACH => [0x40, 0x83, 0x85, 0x40]
    | .FRUIT_APPLE => [0x40, 0x84, 0x85, 0x40]
    | .FRUIT_GRAPES => [0x40, 0x86, 0x8D, 0x8E]
    | .FRUIT_GALAXIAN => [0x87, 0x88, 0x8D, 0x8E]
    | .FRUIT_BELL => [0x89, 0x8A, 0x8D, 0x8E]
    | .FRUIT_KEY => [0x8B, 0x8C, 0x8D, 0x8E]
  row.getD i 0x40

/-- Effect of C `vid_fruit_score` on the tile buffer: the four tiles at
(12+i, 20) are overwritten with the score tiles of the eaten fruit. -/
def vid_fruit_score_vram (vram : VRam) (fruit : Fruit) : VRam :=
  fun x y =>
    if y = 20 ∧ 12 ≤ x ∧ x ≤ 15 then fruit_score_tiles fruit (x - 12).toNat
    else vram x y

/-- Movement part of a pacman block (pacman.c lines 2290-2302 / 2382-2394):
sample the wanted direction, turn if possible, then advance if possible. -/
def pacman_move_step (gs : GameState) (actor : Actor) : Actor :=
  let wanted_dir := input_dir gs actor.dir
  let allow_cornering := true
  let actor1 :=
    if can_move gs.vram actor.pos wanted_dir allow_cornering then
      { actor with dir := wanted_dir }
    else
      actor
  if can_move gs.vram actor1.pos actor1.dir allow_cornering then
    { actor1 with
      pos := move actor1.pos actor1.dir allow_cornering,
      anim_tick := (actor1.anim_tick + 1) % U32_MOD }
  else
    actor1

/-- Dot-eating part of a pacman block (pacman.c lines 2304-2312 / 2396-2404). -/
def eat_dot_step (gs : GameState) (tile_pos : Int2) : GameState :=
  if is_dot gs.vram tile_pos then
    let gs1 := { gs with
      vram := vram_set gs.vram tile_pos TILE_SPACE,
      score := (gs.score + 1) % U32_MOD }
    let gs2 := { gs1 with
      dot_eaten := start gs1.tick,
      force_leave_house := start gs1.tick }
    let gs3 := game_update_dots_eaten gs2
    game_update_ghosthouse_dot_counters gs3
  else
    gs

/-- Arm the frightened trigger of all four ghosts (the for loop of the pill
and player-1 fruit paths). -/
def frighten_all_ghosts (gs : GameState) : GameState :=
  { gs with ghosts := fun t => { gs.ghosts t with frightened := start gs.tick } }

/-- Pill-eating part of a pacman block (pacman.c lines 2313-2323 / 2405-2415). -/
def eat_pill_step (gs : GameState) (tile_pos : Int2) : GameState :=
  if is_pill gs.vram tile_pos then
    let gs1 := { gs with
      vram := vram_set gs.vram tile_pos TILE_SPACE,
      score := (gs.score + 5) % U32_MOD }
    let gs2 := game_update_dots_eaten gs1
    let gs3 := { gs2 with
      pill_eaten := start gs2.tick,
      num_ghosts_eaten := 0 }
    frighten_all_ghosts gs3
  else
    gs

/-- Player-1 fruit check (pacman.c lines 2324-2344): on eating the fruit it
also replays the pill effects (arm pill_eaten, clear the per-pill ghost
counter, frighten all ghosts). -/
def p1_eat_fruit_step (gs : GameState) : GameState :=
  if gs.active_fruit ≠ .FRUIT_NONE then
    let test_pos := pixel_to_tile_pos (add_i2 gs.pacman1.actor.pos ⟨4, 0⟩)
    if equal_i2 test_pos ⟨14, 20⟩ then
      let gs1 := { gs with fruit_eaten := start gs.tick }
      let bonus := (levelspec gs1.round).bonus_score
      let gs2 := { gs1 with score := (gs1.score + bonus) % U32_MOD }
      let gs3 := { gs2 with vram := vid_fruit_score_vram gs2.vram gs2.active_fruit }
      let gs4 := { gs3 with active_fruit := .FRUIT_NONE }
      let gs5 := { gs4 with
        pill_eaten := start gs4.tick,
        num_ghosts_eaten := 0 }
      frighten_all_ghosts gs5
    else
      gs
  else
    gs

/-- Player-2 fruit check (pacman.c lines 2416-2427): the original fruit
behaviour, without the extra pill effects. -/
def p2_eat_fruit_step (gs : GameState) : GameState :=
  if gs.active_fruit ≠ .FRUIT_NONE then
    let test_pos := pixel_to_tile_pos (add_i2 gs.pacman2.actor.pos ⟨4, 0⟩)
    if equal_i2 test_pos ⟨14, 20⟩ then
      let gs1 := { gs with fruit_eaten := start gs.tick }
      let bonus := (levelspec gs1.round).bonus_score
      let gs2 := { gs1 with score := (gs1.score + bonus) % U32_MOD }
      let gs3 := { gs2 with vram := vid_fruit_score_vram gs2.vram gs2.active_fruit }
      { gs3 with active_fruit := .FRUIT_NONE }
    else
      gs
  else
    gs

/-- One iteration of the pacman-vs-ghost collision loop (pacman.c lines
2347-2376 / 2430-2459) for the ghost of type t. -/
def collide_one (tile_pos : Int2) (gs : GameState) (t : GhostType) : GameState :=
  let ghost := gs.ghosts t
  let ghost_tile_pos := pixel_to_tile_pos ghost.actor.pos
  if equal_i2 tile_pos ghost_tile_pos then
    if ghost.state = .FRIGHTENED then
      let gs1 := set_ghost gs t { ghost with state := .EYES, eaten := start gs.tick }
      let gs2 := { gs1 with
        ghost_eaten := start gs1.tick,
        num_ghosts_eaten := (gs1.num_ghosts_eaten + 1) % U8_MOD }
      let gs3 := { gs2 with score := (gs2.score + 10 * 2 ^ gs2.num_ghosts_eaten) % U32_MOD }
      { gs3 with freeze := gs3.freeze ||| FREEZETYPE_EAT_GHOST }
    else if ghost.state = .CHASE ∨ ghost.state = .SCATTER then
      let gs1 := { gs with
        pacman_eaten := start gs.tick,
        freeze := gs.freeze ||| FREEZETYPE_DEAD }
      if 0 < gs1.num_lives then
        { gs1 with ready_started := start_after gs1.tick (PACMAN_EATEN_TICKS + PACMAN_DEATH_TICKS) }
      else
        { gs1 with game_over := start_after gs1.tick (PACMAN_EATEN_TICKS + PACMAN_DEATH_TICKS) }
    else
      gs
  else
    gs

/-- The collision loop over all four ghosts, in type order. -/
def pacman_ghost_collisions (tile_pos : Int2) (gs : GameState) : GameState :=
  collide_one tile_pos
    (collide_one tile_pos
      (collide_one tile_pos
        (collide_one tile_pos gs .BLINKY) .PINKY) .INKY) .CLYDE

/-- The player-1 block of C `game_update_actors` (lines 2289-2378), run when
`game_pacman_should_move()` and `state.game.player2` both hold. -/
def p1_block (gs : GameState) : GameState :=
  let actor1 := pacman_move_step gs gs.pacman1.actor
  let gs1 := { gs with pacman1 := ⟨actor1⟩ }
  let tile_pos := pixel_to_tile_pos actor1.pos
  let gs2 := eat_dot_step gs1 tile_pos
  let gs3 := eat_pill_step gs2 tile_pos
  let gs4 := p1_eat_fruit_step gs3
  pacman_ghost_collisions tile_pos gs4

/-- The player-2 block of C `game_update_actors` (lines 2381-2461), run when
`game_pacman_should_move()` holds and `state.game.player2` does not. -/
def p2_block (gs : GameState) : GameState :=
  let actor2 := pacman_move_step gs gs.pacman2.actor
  let gs1 := { gs with pacman2 := ⟨actor2⟩ }
  let tile_pos := pixel_to_tile_pos actor2.pos
  let gs2 := eat_dot_step gs1 tile_pos
  let gs3 := eat_pill_step gs2 tile_pos
  let gs4 := p2_eat_fruit_step gs3
  pacman_ghost_collisions tile_pos gs4

/-- One pixel step of the ghost movement loop body (pacman.c lines
2472-2480). -/
def ghost_move_once (gs : GameState) (ghost : Ghost) : Ghost :=
  let res := game_update_ghost_dir gs ghost
  let ghost1 := res.1
  let force_move := res.2
  let allow_cornering := false
  if force_move || can_move gs.vram ghost1.actor.pos ghost1.actor.dir allow_cornering then
    { ghost1 with actor :=
      { ghost1.actor with
        pos := move ghost1.actor.pos ghost1.actor.dir allow_cornering,
        anim_tick := (ghost1.actor.anim_tick + 1) % U32_MOD } }
  else
    ghost1

/-- The ghost movement loop: apply `ghost_move_once` num_move_ticks times. -/
def ghost_move_loop : Nat → GameState → Ghost → Ghost
  | 0, _, ghost => ghost
  | n + 1, gs, ghost => ghost_move_loop n gs (ghost_move_once gs ghost)

/-- One iteration of the ghost loop of C `game_update_actors` (lines
2464-2481): state transition, target update, then speed-many pixel moves. -/
def game_update_one_ghost (gs : GameState) (t : GhostType) : GameState :=
  let r1 := game_update_ghost_state gs (gs.ghosts t)
  let r2 := game_update_ghost_target r1.1 r1.2
  let gs2 := r2.1
  let ghost2 := r2.2
  let num_move_ticks := game_ghost_speed gs2 ghost2
  set_ghost gs2 t (ghost_move_loop num_move_ticks gs2 ghost2)

/-- C `game_update_actors`: the central per-tick pacman and ghost behaviour
function (called only on unfrozen ticks). -/
def game_update_actors (gs : GameState) : GameState :=
  let gs1 :=
    if game_pacman_should_move gs && gs.player2 then p1_block gs else gs
  let gs2 :=
    if game_pacman_should_move gs1 && !gs1.player2 then p2_block gs1 else gs1
  let gs3 := game_update_one_ghost gs2 .BLINKY
  let gs4 := game_update_one_ghost gs3 .PINKY
  let gs5 := game_update_one_ghost gs4 .INKY
  game_update_one_ghost gs5 .CLYDE

/-- The agent the player currently controls: the player-1 block runs when the
player2 flag is set, the player-2 block when it is not. -/
def active_pacman (gs : GameState) : PacmanAgent :=
  if gs.player2 then gs.pacman1 else gs.pacman2

/-! ## The decoded playfield (pacman.c lines 1432-1487)

C `game_init_playfield` decodes a 28x31 ASCII map through a character table
into tile codes and stores them at rows 3..33 of the video ram. -/

/-- The ASCII playfield map (rows 3..33 of the display). -/
def maze_ascii : List String :=
  ["0UUUUUUUUUUUU45UUUUUUUUUUUU1",
   "L............rl............R",
   "L.ebbf.ebbbf.rl.ebbbf.ebbf.R",
   "LPr  l.r   l.rl.r   l.r  lPR",
   "L.guuh.guuuh.gh.guuuh.guuh.R",
   "L..........................R",
   "L.ebbf.ef.ebbbbbbf.ef.ebbf.R",
   "L.guuh.rl.guuyxuuh.rl.guuh.R",
   "L......rl....rl....rl......R",
   "2BBBBf.rzbbf rl ebbwl.eBBBB3",
   "     L.rxuuh gh guuyl.R     ",
   "     L.rl          rl.R     ",
   "     L.rl mjs--tjn rl.R     ",
   "UUUUUh.gh i      q gh.gUUUUU",
   "      .   i      q   .      ",
   "BBBBBf.ef i      q ef.eBBBBB",
   "     L.rl okkkkkkp rl.R     ",
   "     L.rl          rl.R     ",
   "     L.rl ebbbbbbf rl.R     ",
   "0UUUUh.gh guuyxuuh gh.gUUUU1",
   "L............rl............R",
   "L.ebbf.ebbbf.rl.ebbbf.ebbf.R",
   "L.guyl.guuuh.gh.guuuh.rxuh.R",
   "LP..rl.......  .......rl..PR",
   "6bf.rl.ef.ebbbbbbf.ef.rl.eb8",
   "7uh.gh.rl.guuyxuuh.rl.gh.gu9",
   "L......rl....rl....rl......R",
   "L.ebbbbwzbbf.rl.ebbwzbbbbf.R",
   "L.guuuuuuuuh.gh.guuuuuuuuh.R",
   "L..........................R",
   "2BBBBBBBBBBBBBBBBBBBBBBBBBB3"]

/-- The character-to-tile-code table of `game_init_playfield` (characters not
in the table decode to TILE_DOT). -/
def maze_char_code (c : Char) : Nat :=
  match c with
  | ' ' => 0x40
  | '0' => 0xD1
  | '1' => 0xD0
  | '2' => 0xD5
  | '3' => 0xD4
  | '4' => 0xFB
  | '5' => 0xFA
  | '6' => 0xD7
  | '7' => 0xD9
  | '8' => 0xD6
  | '9' => 0xD8
  | 'U' => 0xDB
  | 'L' => 0xD3
  | 'R' => 0xD2
  | 'B' => 0xDC
  | 'b' => 0xDF
  | 'e' => 0xE7
  | 'f' => 0xE6
  | 'g' => 0xEB
  | 'h' => 0xEA
  | 'l' => 0xE8
  | 'r' => 0xE9
  | 'u' => 0xE5
  | 'w' => 0xF5
  | 'x' => 0xF2
  | 'y' => 0xF3
  | 'z' => 0xF4
  | 'm' => 0xED
  | 'n' => 0xEC
  | 'o' => 0xEF
  | 'p' => 0xEE
  | 'j' => 0xDD
  | 'i' => 0xD2
  | 'k' => 0xDB
  | 'q' => 0xD3
  | 's' => 0xF1
  | 't' => 0xF0
  | '-' => 0xCF
  | 'P' => 0x14
  | _ => 0x10

/-- The decoded initial tile buffer: the playfield at rows 3..33, TILE_SPACE
on the HUD rows outside it (whose actual contents are text and status tiles,
all with codes below 0xC0 and thus never blocking). -/
def vram0 : VRam :=
  fun x y =>
    if 0 ≤ x ∧ x < 28 ∧ 3 ≤ y ∧ y ≤ 33 then
      maze_char_code (((maze_ascii.getD (y - 3).toNat "").toList).getD x.toNat ' ')
    else
      TILE_SPACE

/-! ## The blocking invariant (claim C10) -/

/-- The tile an actor enters when crossing its tile's right edge (horizontal
wraparound at the maze border). -/
def tile_right (t : Int2) : Int2 :=
  if t.x = 27 then ⟨0, t.y⟩ else ⟨t.x + 1, t.y⟩

/-- The tile an actor enters when crossing its tile's left edge (horizontal
wraparound at the maze border). -/
def tile_left (t : Int2) : Int2 :=
  if t.x = 0 then ⟨27, t.y⟩ else ⟨t.x - 1, t.y⟩

/-- Position invariant of a cornering actor (a pacman agent): the pixel
position is in range, the occupied tile is free, the combined distance from
the two tile centerlines is at most 4 pixels, and on whichever side of a
center the actor stands, the neighbouring tile it could cross into without a
further `can_move` center check is free. -/
def PacInv (v : VRam) (p : Int2) : Prop :=
  0 ≤ p.x ∧ p.x < 224 ∧ 24 ≤ p.y ∧ p.y < 272
  ∧ is_blocking_tile v (pixel_to_tile_pos p) = false
  ∧ ((4 : Int) - p.x % 8).natAbs + ((4 : Int) - p.y % 8).natAbs ≤ 4
  ∧ (4 < p.x % 8 → is_blocking_tile v (tile_right (pixel_to_tile_pos p)) = false)
  ∧ (p.x % 8 < 4 → is_blocking_tile v (tile_left (pixel_to_tile_pos p)) = false)
  ∧ (4 < p.y % 8 →
      is_blocking_tile v ⟨(pixel_to_tile_pos p).x, (pixel_to_tile_pos p).y + 1⟩ = false)
  ∧ (p.y % 8 < 4 →
      is_blocking_tile v ⟨(pixel_to_tile_pos p).x, (pixel_to_tile_pos p).y - 1⟩ = false)

/-- Position invariant of a non-cornering actor (a ghost in one of the free
movement states): pixel position in range, occupied tile free, the
perpendicular axis can be off-center only while the actor cannot move, and
past the center of its tile in its movement direction the next tile is
free. -/
def NormInv (v : VRam) (g : Ghost) : Prop :=
  let p := g.actor.pos
  0 ≤ p.x ∧ p.x < 224 ∧ 24 ≤ p.y ∧ p.y < 272
  ∧ is_blocking_tile v (pixel_to_tile_pos p) = false
  ∧ (match g.actor.dir with
     | .RIGHT => p.y % 8 = 4
       ∧ (4 < p.x % 8 → is_blocking_tile v (tile_right (pixel_to_tile_pos p)) = false)
     | .LEFT => p.y % 8 = 4
       ∧ (p.x % 8 < 4 → is_blocking_tile v (tile_left (pixel_to_tile_pos p)) = false)
     | .DOWN => p.x % 8 = 4
       ∧ (4 < p.y % 8 →
           is_blocking_tile v ⟨(pixel_to_tile_pos p).x, (pixel_to_tile_pos p).y + 1⟩ = false)
     | .UP => p.x % 8 = 4
       ∧ (p.y % 8 < 4 →
           is_blocking_tile v ⟨(pixel_to_tile_pos p).x, (pixel_to_tile_pos p).y - 1⟩ = false))

/-- Position region of a ghost in HOUSE state: bobbing vertically inside the
house on one of the three slot columns. -/
def HouseInv (g : Ghost) : Prop :=
  (g.actor.pos.x = 96 ∨ g.actor.pos.x = 112 ∨ g.actor.pos.x = 128)
  ∧ 136 ≤ g.actor.pos.y ∧ g.actor.pos.y ≤ 144
  ∧ (g.next_dir = .UP ∨ g.next_dir = .DOWN)

/-- Position region of a ghost in LEAVEHOUSE state: inside the house heading
for y = 140, along the slot row toward x = 112, or climbing the door column to
the anteportas point. -/
def LeaveInv (g : Ghost) : Prop :=
  (95 ≤ g.actor.pos.x ∧ g.actor.pos.x ≤ 129
    ∧ 135 ≤ g.actor.pos.y ∧ g.actor.pos.y ≤ 145)
  ∨ (g.actor.pos.x = 112 ∧ 116 ≤ g.actor.pos.y ∧ g.actor.pos.y ≤ 145)

/-- Position region of a ghost in ENTERHOUSE state: the entry box around the
house door, the descent down the door column (where the look-ahead direction
stays DOWN), or the slot row walk toward the house target slot. -/
def EnterInv (g : Ghost) : Prop :=
  (111 ≤ g.actor.pos.x ∧ g.actor.pos.x ≤ 113
    ∧ 115 ≤ g.actor.pos.y ∧ g.actor.pos.y ≤ 119)
  ∨ (g.actor.pos.x = 112 ∧ 115 ≤ g.actor.pos.y ∧ g.actor.pos.y ≤ 140
      ∧ (120 ≤ g.actor.pos.y → g.actor.pos.y ≤ 139 → g.next_dir = .DOWN))
  ∨ (95 ≤ g.actor.pos.x ∧ g.actor.pos.x ≤ 129 ∧ g.actor.pos.y = 140)

/-- Invariant of one ghost, by state. -/
def GhostInv (v : VRam) (g : Ghost) : Prop :=
  match g.state with
  | .HOUSE => HouseInv g
  | .LEAVEHOUSE => LeaveInv g
  | .ENTERHOUSE => EnterInv g
  | _ => NormInv v g

/-- The tile buffer blocks exactly where the decoded initial playfield does
(gameplay writes only tile codes below 0xC0 over cells that already held
codes below 0xC0). -/
def BlockedEquiv (v : VRam) : Prop :=
  ∀ x y : Int, (0xC0 ≤ v x y ↔ 0xC0 ≤ vram0 x y)

/-- The full blocking invariant of claim C10. -/
def Inv (gs : GameState) : Prop :=
  BlockedEquiv gs.vram
  ∧ PacInv gs.vram gs.pacman1.actor.pos
  ∧ PacInv gs.vram gs.pacman2.actor.pos
  ∧ ∀ t : GhostType, GhostInv gs.vram (gs.ghosts t)

/-! ## Concrete states for witnesses and counterexamples -/

/-- An all-open tile buffer (every tile TILE_SPACE). -/
def vram_empty : VRam := fun _ _ => TILE_SPACE

/-- The per-ghost state set up by C `game_round_init` (pacman.c lines
1582-1645); unspecified struct fields are zero-initialized in C. -/
def ghost_round_init : GhostType → Ghost
  | .BLINKY =>
    ⟨⟨.LEFT, ghost_starting_pos .BLINKY, 0⟩, .BLINKY, .LEFT, ⟨0, 0⟩, .SCATTER,
      disabled_timer, disabled_timer, 0, 0⟩
  | .PINKY =>
    ⟨⟨.DOWN, ghost_starting_pos .PINKY, 0⟩, .PINKY, .DOWN, ⟨0, 0⟩, .HOUSE,
      disabled_timer, disabled_timer, 0, 0⟩
  | .INKY =>
    ⟨⟨.UP, ghost_starting_pos .INKY, 0⟩, .INKY, .UP, ⟨0, 0⟩, .HOUSE,
      disabled_timer, disabled_timer, 0, 30⟩
  | .CLYDE =>
    ⟨⟨.UP, ghost_starting_pos .CLYDE, 0⟩, .CLYDE, .UP, ⟨0, 0⟩, .HOUSE,
      disabled_timer, disabled_timer, 0, 60⟩

/-- A concrete game state a few ticks into a round: the actor positions and
directions of `game_round_init`, an open tile buffer, all one-shot triggers
disabled, round_started armed at tick 0, current tick 8. -/
def gs_base : GameState where
  tick := 8
  xorshift := 0x12345678
  vram := vram_empty
  ready_started := disabled_timer
  round_started := ⟨0⟩
  round_won := disabled_timer
  game_over := disabled_timer
  dot_eaten := disabled_timer
  pill_eaten := disabled_timer
  ghost_eaten := disabled_timer
  pacman_eaten := disabled_timer
  fruit_eaten := disabled_timer
  force_leave_house := disabled_timer
  fruit_active := disabled_timer
  freeze := 0
  round := 0
  score := 0
  num_lives := 6
  num_ghosts_eaten := 0
  num_dots_eaten := 0
  global_dot_counter_active := false
  global_dot_counter := 0
  ghosts := ghost_round_init
  pacman1 := ⟨⟨.LEFT, ⟨112, 212⟩, 0⟩⟩
  pacman2 := ⟨⟨.RIGHT, ⟨112, 212⟩, 0⟩⟩
  player2 := false
  active_fruit := .FRUIT_NONE
  input1 := ⟨false, false, false, false⟩
  input2 := ⟨false, false, false, false⟩

/-- Concrete state for claim C1: the player2 flag selects pacman1, and the two
pacman agents stand on different tiles. -/
def gs_c1 : GameState :=
  { gs_base with
    player2 := true
    pacman1 := ⟨⟨.LEFT, ⟨36, 116⟩, 0⟩⟩
    pacman2 := ⟨⟨.RIGHT, ⟨100, 116⟩, 0⟩⟩ }

/-- A Blinky ghost in CHASE state. -/
def ghost_c1 : Ghost :=
  { ghost_round_init .BLINKY with state := .CHASE }

/-- Concrete state for claim C2: unfrozen, player2 flag set, the active agent
(pacman1) standing on a dot, but tick 8 stalls the pacman movement gate. -/
def gs_c2 : GameState :=
  { gs_base with
    player2 := true
    vram := vram_set vram_empty ⟨14, 26⟩ TILE_DOT }

/-- Concrete state for claim C2's witness: unfrozen, player2 flag set, tick 9
passes the pacman movement gate, and a dot sits on the tile the moving
pacman1 enters (one tile to its left). -/
def gs_c2w : GameState :=
  { gs_base with
    player2 := true
    tick := 9
    vram := vram_set vram_empty ⟨13, 26⟩ TILE_DOT }

/-- Concrete state for claim C3's witness: active cherries fruit and both
pacman agents positioned so that the fruit test tile is (14, 20). -/
def gs_c3 : GameState :=
  { gs_base with
    active_fruit := .FRUIT_CHERRIES
    pacman1 := ⟨⟨.RIGHT, ⟨110, 164⟩, 0⟩⟩
    pacman2 := ⟨⟨.RIGHT, ⟨110, 164⟩, 0⟩⟩ }

/-- Concrete state for claim C6's counterexample: three ghosts already eaten
under the current pill, an active fruit about to be eaten by player 1, and no
pill anywhere on the playfield. -/
def gs_c6 : GameState :=
  { gs_base with
    active_fruit := .FRUIT_CHERRIES
    num_ghosts_eaten := 3
    pacman1 := ⟨⟨.RIGHT, ⟨110, 164⟩, 0⟩⟩ }

/-- Concrete state for claim C6's witness: Blinky frightened on the same tile
as the acting pacman. -/
def gs_c6w : GameState :=
  { gs_base with
    ghosts := fun t =>
      if t = .BLINKY then
        { ghost_round_init .BLINKY with
          state := .FRIGHTENED
          actor := ⟨.LEFT, ⟨36, 116⟩, 0⟩ }
      else ghost_round_init t }

/-- Concrete state for claim C7: global dot-counter mode active with the
shared counter at Clyde's threshold of 32, Clyde still in the house. -/
def gs_c7 : GameState :=
  { gs_base with
    global_dot_counter_active := true
    global_dot_counter := 32 }

/-- Concrete ghost for claim C9's counterexample: an EYES ghost exactly at the
house-entrance point with its frightened trigger still armed. -/
def ghost_c9 : Ghost :=
  { ghost_round_init .BLINKY with
    state := .EYES
    actor := ⟨.LEFT, ⟨112, 116⟩, 0⟩
    frightened := ⟨51⟩ }

/-- Concrete ghost for claim C9's witness: an ENTERHOUSE ghost that has
reached its in-house target slot, frightened trigger still armed. -/
def ghost_c9w : Ghost :=
  { ghost_round_init .BLINKY with
    state := .ENTERHOUSE
    actor := ⟨.DOWN, ⟨112, 140⟩, 0⟩
    frightened := ⟨51⟩ }

/-! ## Helper lemmas -/

/-- `game_update_dots_eaten` does not change the tick. -/
theorem game_update_dots_eaten_tick (gs : GameState) :
    (game_update_dots_eaten gs).tick = gs.tick := by
  simp only [game_update_dots_eaten]
  split_ifs <;> rfl

/-- `game_update_dots_eaten` does not change the ghost table. -/
theorem game_update_dots_eaten_ghosts (gs : GameState) :
    (game_update_dots_eaten gs).ghosts = gs.ghosts := by
  simp only [game_update_dots_eaten]
  split_ifs <;> rfl

/-- `game_update_dots_eaten` does not change the pill trigger. -/
theorem game_update_dots_eaten_pill (gs : GameState) :
    (game_update_dots_eaten gs).pill_eaten = gs.pill_eaten := by
  simp only [game_update_dots_eaten]
  split_ifs <;> rfl

/-- `game_update_dots_eaten` does not change the ghosts-eaten counter. -/
theorem game_update_dots_eaten_ghosts_eaten (gs : GameState) :
    (game_update_dots_eaten gs).num_ghosts_eaten = gs.num_ghosts_eaten := by
  simp only [game_update_dots_eaten]
  split_ifs <;> rfl

/-- `game_update_dots_eaten` does not change pacman1. -/
@[simp] theorem game_update_dots_eaten_pacman1 (gs : GameState) :
    (game_update_dots_eaten gs).pacman1 = gs.pacman1 := by
  simp only [game_update_dots_eaten]
  split_ifs <;> rfl

/-- `game_update_dots_eaten` does not change pacman2. -/
@[simp] theorem game_update_dots_eaten_pacman2 (gs : GameState) :
    (game_update_dots_eaten gs).pacman2 = gs.pacman2 := by
  simp only [game_update_dots_eaten]
  split_ifs <;> rfl

/-- `game_update_dots_eaten` does not change the player2 flag. -/
@[simp] theorem game_update_dots_eaten_player2 (gs : GameState) :
    (game_update_dots_eaten gs).player2 = gs.player2 := by
  simp only [game_update_dots_eaten]
  split_ifs <;> rfl

/-- The dot-counter update does not change pacman1. -/
@[simp] theorem ghosthouse_dot_counters_pacman1 (gs : GameState) :
    (game_update_ghosthouse_dot_counters gs).pacman1 = gs.pacman1 := by
  simp only [game_update_ghosthouse_dot_counters, set_ghost]
  split_ifs <;> rfl

/-- The dot-counter update does not change pacman2. -/
@[simp] theorem ghosthouse_dot_counters_pacman2 (gs : GameState) :
    (game_update_ghosthouse_dot_counters gs).pacman2 = gs.pacman2 := by
  simp only [game_update_ghosthouse_dot_counters, set_ghost]
  split_ifs <;> rfl

/-- The dot-counter update does not change the player2 flag. -/
@[simp] theorem ghosthouse_dot_counters_player2 (gs : GameState) :
    (game_update_ghosthouse_dot_counters gs).player2 = gs.player2 := by
  simp only [game_update_ghosthouse_dot_counters, set_ghost]
  split_ifs <;> rfl

/-- The dot-eating step does not change pacman1. -/
@[simp] theorem eat_dot_step_pacman1 (gs : GameState) (tp : Int2) :
    (eat_dot_step gs tp).pacman1 = gs.pacman1 := by
  simp only [eat_dot_step]
  split_ifs <;> simp

/-- The dot-eating step does not change pacman2. -/
@[simp] theorem eat_dot_step_pacman2 (gs : GameState) (tp : Int2) :
    (eat_dot_step gs tp).pacman2 = gs.pacman2 := by
  simp only [eat_dot_step]
  split_ifs <;> simp

/-- The dot-eating step does not change the player2 flag. -/
@[simp] theorem eat_dot_step_player2 (gs : GameState) (tp : Int2) :
    (eat_dot_step gs tp).player2 = gs.player2 := by
  simp only [eat_dot_step]
  split_ifs <;> simp

/-- The pill-eating step does not change pacman1. -/
@[simp] theorem eat_pill_step_pacman1 (gs : GameState) (tp : Int2) :
    (eat_pill_step gs tp).pacman1 = gs.pacman1 := by
  simp only [eat_pill_step, frighten_all_ghosts]
  split_ifs <;> simp

/-- The pill-eating step does not change pacman2. -/
@[simp] theorem eat_pill_step_pacman2 (gs : GameState) (tp : Int2) :
    (eat_pill_step gs tp).pacman2 = gs.pacman2 := by
  simp only [eat_pill_step, frighten_all_ghosts]
  split_ifs <;> simp

/-- The pill-eating step does not change the player2 flag. -/
@[simp] theorem eat_pill_step_player2 (gs : GameState) (tp : Int2) :
    (eat_pill_step gs tp).player2 = gs.player2 := by
  simp only [eat_pill_step, frighten_all_ghosts]
  split_ifs <;> simp

/-- The player-1 fruit step does not change pacman1. -/
@[simp] theorem p1_eat_fruit_step_pacman1 (gs : GameState) :
    (p1_eat_fruit_step gs).pacman1 = gs.pacman1 := by
  simp only [p1_eat_fruit_step, frighten_all_ghosts]
  split_ifs <;> rfl

/-- The player-1 fruit step does not change pacman2. -/
@[simp] theorem p1_eat_fruit_step_pacman2 (gs : GameState) :
    (p1_eat_fruit_step gs).pacman2 = gs.pacman2 := by
  simp only [p1_eat_fruit_step, frighten_all_ghosts]
  split_ifs <;> rfl

/-- The player-1 fruit step does not change the player2 flag. -/
@[simp] theorem p1_eat_fruit_step_player2 (gs : GameState) :
    (p1_eat_fruit_step gs).player2 = gs.player2 := by
  simp only [p1_eat_fruit_step, frighten_all_ghosts]
  split_ifs <;> rfl

/-- The player-2 fruit step does not change pacman1. -/
@[simp] theorem p2_eat_fruit_step_pacman1 (gs : GameState) :
    (p2_eat_fruit_step gs).pacman1 = gs.pacman1 := by
  simp only [p2_eat_fruit_step]
  split_ifs <;> rfl

/-- The player-2 fruit step does not change pacman2. -/
@[simp] theorem p2_eat_fruit_step_pacman2 (gs : GameState) :
    (p2_eat_fruit_step gs).pacman2 = gs.pacman2 := by
  simp only [p2_eat_fruit_step]
  split_ifs <;> rfl

/-- The player-2 fruit step does not change the player2 flag. -/
@[simp] theorem p2_eat_fruit_step_player2 (gs : GameState) :
    (p2_eat_fruit_step gs).player2 = gs.player2 := by
  simp only [p2_eat_fruit_step]
  split_ifs <;> rfl

/-- One collision-loop iteration does not change pacman1. -/
@[simp] theorem collide_one_pacman1 (tp : Int2) (gs : GameState) (t : GhostType) :
    (collide_one tp gs t).pacman1 = gs.pacman1 := by
  simp only [collide_one, set_ghost]
  split_ifs <;> rfl

/-- One collision-loop iteration does not change pacman2. -/
@[simp] theorem collide_one_pacman2 (tp : Int2) (gs : GameState) (t : GhostType) :
    (collide_one tp gs t).pacman2 = gs.pacman2 := by
  simp only [collide_one, set_ghost]
  split_ifs <;> rfl

/-- One collision-loop iteration does not change the player2 flag. -/
@[simp] theorem collide_one_player2 (tp : Int2) (gs : GameState) (t : GhostType) :
    (collide_one tp gs t).player2 = gs.player2 := by
  simp only [collide_one, set_ghost]
  split_ifs <;> rfl

/-- The collision loop does not change pacman1, pacman2 or the flag. -/
@[simp] theorem pacman_ghost_collisions_pacman1 (tp : Int2) (gs : GameState) :
    (pacman_ghost_collisions tp gs).pacman1 = gs.pacman1 := by
  simp [pacman_ghost_collisions]

/-- The collision loop does not change pacman2. -/
@[simp] theorem pacman_ghost_collisions_pacman2 (tp : Int2) (gs : GameState) :
    (pacman_ghost_collisions tp gs).pacman2 = gs.pacman2 := by
  simp [pacman_ghost_collisions]

/-- The collision loop does not change the player2 flag. -/
@[simp] theorem pacman_ghost_collisions_player2 (tp : Int2) (gs : GameState) :
    (pacman_ghost_collisions tp gs).player2 = gs.player2 := by
  simp [pacman_ghost_collisions]

/-- The player-1 block does not change pacman2. -/
@[simp] theorem p1_block_pacman2 (gs : GameState) :
    (p1_block gs).pacman2 = gs.pacman2 := by
  simp [p1_block]

/-- The player-1 block does not change the player2 flag. -/
@[simp] theorem p1_block_player2 (gs : GameState) :
    (p1_block gs).player2 = gs.player2 := by
  simp [p1_block]

/-- The player-2 block does not change pacman1. -/
@[simp] theorem p2_block_pacman1 (gs : GameState) :
    (p2_block gs).pacman1 = gs.pacman1 := by
  simp [p2_block]

/-- The player-2 block does not change the player2 flag. -/
@[simp] theorem p2_block_player2 (gs : GameState) :
    (p2_block gs).player2 = gs.player2 := by
  simp [p2_block]

/-- The game-state component returned by `game_update_ghost_state` is the one
computed by `ghost_new_state` (the transition actions only touch the ghost). -/
theorem game_update_ghost_state_fst (gs : GameState) (g : Ghost) :
    (game_update_ghost_state gs g).1 = (ghost_new_state gs g).1 := by
  simp only [game_update_ghost_state]
  split_ifs <;> rfl

/-- The state component of `ghost_new_state` keeps pacman1. -/
@[simp] theorem ghost_new_state_pacman1 (gs : GameState) (g : Ghost) :
    (ghost_new_state gs g).1.pacman1 = gs.pacman1 := by
  obtain ⟨a, ty, nd, tp, st, fr, ea, dc, dl⟩ := g
  cases st <;> simp only [ghost_new_state] <;> split_ifs <;> rfl

/-- The state component of `ghost_new_state` keeps pacman2. -/
@[simp] theorem ghost_new_state_pacman2 (gs : GameState) (g : Ghost) :
    (ghost_new_state gs g).1.pacman2 = gs.pacman2 := by
  obtain ⟨a, ty, nd, tp, st, fr, ea, dc, dl⟩ := g
  cases st <;> simp only [ghost_new_state] <;> split_ifs <;> rfl

/-- The ghost state transition keeps pacman1. -/
@[simp] theorem game_update_ghost_state_pacman1 (gs : GameState) (g : Ghost) :
    (game_update_ghost_state gs g).1.pacman1 = gs.pacman1 := by
  rw [game_update_ghost_state_fst]
  exact ghost_new_state_pacman1 gs g

/-- The ghost state transition keeps pacman2. -/
@[simp] theorem game_update_ghost_state_pacman2 (gs : GameState) (g : Ghost) :
    (game_update_ghost_state gs g).1.pacman2 = gs.pacman2 := by
  rw [game_update_ghost_state_fst]
  exact ghost_new_state_pacman2 gs g

/-- The ghost target update keeps pacman1. -/
@[simp] theorem game_update_ghost_target_pacman1 (gs : GameState) (g : Ghost) :
    (game_update_ghost_target gs g).1.pacman1 = gs.pacman1 := by
  cases hst : g.state <;> simp [game_update_ghost_target, hst]

/-- The ghost target update keeps pacman2. -/
@[simp] theorem game_update_ghost_target_pacman2 (gs : GameState) (g : Ghost) :
    (game_update_ghost_target gs g).1.pacman2 = gs.pacman2 := by
  cases hst : g.state <;> simp [game_update_ghost_target, hst]

/-- One ghost-loop iteration keeps pacman1. -/
@[simp] theorem game_update_one_ghost_pacman1 (gs : GameState) (t : GhostType) :
    (game_update_one_ghost gs t).pacman1 = gs.pacman1 := by
  simp [game_update_one_ghost, set_ghost]

/-- One ghost-loop iteration keeps pacman2. -/
@[simp] theorem game_update_one_ghost_pacman2 (gs : GameState) (t : GhostType) :
    (game_update_one_ghost gs t).pacman2 = gs.pacman2 := by
  simp [game_update_one_ghost, set_ghost]

/-- `game_update_dots_eaten` bumps the dot count (mod 256) in every branch. -/
@[simp] theorem game_update_dots_eaten_num (gs : GameState) :
    (game_update_dots_eaten gs).num_dots_eaten = (gs.num_dots_eaten + 1) % U8_MOD := by
  simp only [game_update_dots_eaten]
  split_ifs <;> rfl

/-- `game_update_dots_eaten` does not write the tile buffer. -/
@[simp] theorem game_update_dots_eaten_vram (gs : GameState) :
    (game_update_dots_eaten gs).vram = gs.vram := by
  simp only [game_update_dots_eaten]
  split_ifs <;> rfl

/-- The ghost-house dot counters do not touch the total dot count. -/
@[simp] theorem ghosthouse_dot_counters_num (gs : GameState) :
    (game_update_ghosthouse_dot_counters gs).num_dots_eaten = gs.num_dots_eaten := by
  simp only [game_update_ghosthouse_dot_counters, set_ghost]
  split_ifs <;> rfl

/-- The ghost-house dot counters do not write the tile buffer. -/
@[simp] theorem ghosthouse_dot_counters_vram (gs : GameState) :
    (game_update_ghosthouse_dot_counters gs).vram = gs.vram := by
  simp only [game_update_ghosthouse_dot_counters, set_ghost]
  split_ifs <;> rfl

/-- Eating a dot bumps the total dot count by one (mod 256). -/
theorem eat_dot_step_num_dot (gs : GameState) (tp : Int2)
    (hd : is_dot gs.vram tp = true) :
    (eat_dot_step gs tp).num_dots_eaten = (gs.num_dots_eaten + 1) % U8_MOD := by
  simp [eat_dot_step, hd]

/-- Eating a dot clears the dot's tile in the buffer. -/
theorem eat_dot_step_vram_eq (gs : GameState) (tp : Int2)
    (hd : is_dot gs.vram tp = true) :
    (eat_dot_step gs tp).vram = vram_set gs.vram tp TILE_SPACE := by
  simp [eat_dot_step, hd]

/-- A tile just overwritten with the empty code is not a pill. -/
theorem is_pill_after_clear (vr : VRam) (tp : Int2) :
    is_pill (vram_set vr tp TILE_SPACE) tp = false := by
  simp [is_pill, vram_set, tile_code_at, TILE_SPACE, TILE_PILL]

/-- The player-1 fruit check does not touch the total dot count. -/
@[simp] theorem p1_eat_fruit_step_num (gs : GameState) :
    (p1_eat_fruit_step gs).num_dots_eaten = gs.num_dots_eaten := by
  simp only [p1_eat_fruit_step, frighten_all_ghosts]
  split_ifs <;> rfl

/-- The player-2 fruit check does not touch the total dot count. -/
@[simp] theorem p2_eat_fruit_step_num (gs : GameState) :
    (p2_eat_fruit_step gs).num_dots_eaten = gs.num_dots_eaten := by
  simp only [p2_eat_fruit_step]
  split_ifs <;> rfl

/-- A collision test does not touch the total dot count. -/
@[simp] theorem collide_one_num (tp : Int2) (gs : GameState) (t : GhostType) :
    (collide_one tp gs t).num_dots_eaten = gs.num_dots_eaten := by
  simp only [collide_one, set_ghost]
  split_ifs <;> rfl

/-- The collision loop does not touch the total dot count. -/
@[simp] theorem pacman_ghost_collisions_num (tp : Int2) (gs : GameState) :
    (pacman_ghost_collisions tp gs).num_dots_eaten = gs.num_dots_eaten := by
  simp [pacman_ghost_collisions]

/-- The state component of `ghost_new_state` keeps the total dot count. -/
@[simp] theorem ghost_new_state_num (gs : GameState) (g : Ghost) :
    (ghost_new_state gs g).1.num_dots_eaten = gs.num_dots_eaten := by
  obtain ⟨a, ty, nd, tp, st, fr, ea, dc, dl⟩ := g
  cases st <;> simp only [ghost_new_state] <;> split_ifs <;> rfl

/-- The ghost state transition keeps the total dot count. -/
@[simp] theorem game_update_ghost_state_num (gs : GameState) (g : Ghost) :
    (game_update_ghost_state gs g).1.num_dots_eaten = gs.num_dots_eaten := by
  rw [game_update_ghost_state_fst]
  exact ghost_new_state_num gs g

/-- The ghost target update keeps the total dot count. -/
@[simp] theorem game_update_ghost_target_num (gs : GameState) (g : Ghost) :
    (game_update_ghost_target gs g).1.num_dots_eaten = gs.num_dots_eaten := by
  cases hst : g.state <;> simp [game_update_ghost_target, hst]

/-- One ghost-loop iteration keeps the total dot count. -/
@[simp] theorem game_update_one_ghost_num (gs : GameState) (t : GhostType) :
    (game_update_one_ghost gs t).num_dots_eaten = gs.num_dots_eaten := by
  simp [game_update_one_ghost, set_ghost]

/-- In personal mode, the per-dot counter update bumps the counter of at most
one ghost (characterized by an optional bumped type). -/
theorem ghosthouse_personal_bump (gs : GameState)
    (ha : gs.global_dot_counter_active = false) :
    ∃ b : Option GhostType,
      ∀ v : GhostType,
        ((game_update_ghosthouse_dot_counters gs).ghosts v).dot_counter
          = if some v = b then ((gs.ghosts v).dot_counter + 1) % U16_MOD
            else (gs.ghosts v).dot_counter := by
  simp only [game_update_ghosthouse_dot_counters, ha, Bool.false_eq_true, if_false]
  split_ifs with hb hp hi hc
  · refine ⟨some .BLINKY, ?_⟩
    intro v
    by_cases hv : v = .BLINKY <;> simp [set_ghost, hv]
  · refine ⟨some .PINKY, ?_⟩
    intro v
    by_cases hv : v = .PINKY <;> simp [set_ghost, hv]
  · refine ⟨some .INKY, ?_⟩
    intro v
    by_cases hv : v = .INKY <;> simp [set_ghost, hv]
  · refine ⟨some .CLYDE, ?_⟩
    intro v
    by_cases hv : v = .CLYDE <;> simp [set_ghost, hv]
  · exact ⟨none, fun v => by simp⟩

/-! ## Helper lemmas for the blocking invariant -/

/-- C division truncation agrees with Euclidean division on the nonnegative
coordinates used by the spatial helpers. -/
theorem tdiv8_eq_ediv (a : Int) (h : 0 ≤ a) : Int.tdiv a 8 = a / 8 :=
  Int.tdiv_eq_ediv h (by norm_num)

/-- C remainder truncation agrees with Euclidean remainder on nonnegative
coordinates. -/
theorem tmod8_eq_emod (a : Int) (h : 0 ≤ a) : Int.tmod a 8 = a % 8 :=
  Int.tmod_eq_emod h (by norm_num)

/-- `pixel_to_tile_pos` in Euclidean terms for in-range positions. -/
theorem pixel_to_tile_pos_eq (x y : Int) (hx : 0 ≤ x) (hy : 0 ≤ y) :
    pixel_to_tile_pos ⟨x, y⟩ = ⟨x / 8, y / 8⟩ := by
  simp [pixel_to_tile_pos, TILE_WIDTH, tdiv8_eq_ediv, hx, hy]

/-- `dist_to_tile_mid` in Euclidean terms for in-range positions. -/
theorem dist_to_tile_mid_eq (x y : Int) (hx : 0 ≤ x) (hy : 0 ≤ y) :
    dist_to_tile_mid ⟨x, y⟩ = ⟨4 - x % 8, 4 - y % 8⟩ := by
  simp [dist_to_tile_mid, TILE_WIDTH, tmod8_eq_emod, hx, hy]

/-- Clamping is the identity on tiles inside the playfield window. -/
theorem clamped_tile_pos_id (t : Int2) (hx0 : 0 ≤ t.x) (hx1 : t.x < 28)
    (hy0 : 3 ≤ t.y) (hy1 : t.y ≤ 33) : clamped_tile_pos t = t := by
  obtain ⟨x, y⟩ := t
  simp only [clamped_tile_pos, DISPLAY_TILES_X, DISPLAY_TILES_Y] at *
  split_ifs <;> first | rfl | (exfalso; omega)

/-- Clamping one tile beyond the right border checks the border tile. -/
theorem clamped_tile_pos_right_edge (y : Int) (hy0 : 3 ≤ y) (hy1 : y ≤ 33) :
    clamped_tile_pos ⟨28, y⟩ = ⟨27, y⟩ := by
  simp only [clamped_tile_pos, DISPLAY_TILES_X, DISPLAY_TILES_Y]
  split_ifs <;> first | rfl | (exfalso; omega)

/-- Clamping one tile beyond the left border checks the border tile. -/
theorem clamped_tile_pos_left_edge (y : Int) (hy0 : 3 ≤ y) (hy1 : y ≤ 33) :
    clamped_tile_pos ⟨-1, y⟩ = ⟨0, y⟩ := by
  simp only [clamped_tile_pos, DISPLAY_TILES_X, DISPLAY_TILES_Y]
  split_ifs <;> first | rfl | (exfalso; omega)

/-- Clamping one tile below the playfield checks the bottom playfield row. -/
theorem clamped_tile_pos_bottom_edge (x : Int) (hx0 : 0 ≤ x) (hx1 : x < 28) :
    clamped_tile_pos ⟨x, 34⟩ = ⟨x, 33⟩ := by
  simp only [clamped_tile_pos, DISPLAY_TILES_X, DISPLAY_TILES_Y]
  split_ifs <;> first | rfl | (exfalso; omega)

/-- Blocking tests on a buffer that blocks like the initial playfield can be
evaluated on the initial playfield. -/
theorem blocked_transfer (v : VRam) (he : BlockedEquiv v) (t : Int2) :
    is_blocking_tile v t = is_blocking_tile vram0 t := by
  simp only [is_blocking_tile, tile_code_at]
  exact decide_eq_decide.mpr (he t.x t.y)

/-- Along every playfield row, if the rightmost column is open so is the
leftmost (in the decoded maze only the tunnel row is open at the borders). -/
theorem maze_wrap_right (R : Int) (h : is_blocking_tile vram0 ⟨27, R⟩ = false) :
    is_blocking_tile vram0 ⟨0, R⟩ = false := by
  by_cases hR : 3 ≤ R ∧ R ≤ 33
  · obtain ⟨h1, h2⟩ := hR
    interval_cases R <;> revert h <;> decide
  · simp only [is_blocking_tile, tile_code_at, vram0]
    rw [if_neg (by omega)]
    decide

/-- Along every playfield row, if the leftmost column is open so is the
rightmost. -/
theorem maze_wrap_left (R : Int) (h : is_blocking_tile vram0 ⟨0, R⟩ = false) :
    is_blocking_tile vram0 ⟨27, R⟩ = false := by
  by_cases hR : 3 ≤ R ∧ R ≤ 33
  · obtain ⟨h1, h2⟩ := hR
    interval_cases R <;> revert h <;> decide
  · simp only [is_blocking_tile, tile_code_at, vram0]
    rw [if_neg (by omega)]
    decide

/-- Equality of Int2 values from componentwise equality. -/
theorem int2_mk_eq {a b c d : Int} (h1 : a = c) (h2 : b = d) :
    (⟨a, b⟩ : Int2) = ⟨c, d⟩ := by
  rw [h1, h2]

/-- Core of the rightward cornering step: advancing one pixel to the right
(with the perpendicular drag outcome Y) preserves the invariant. -/
theorem pac_step_right_core (v : VRam) (px py Y : Int)
    (hwrap : ∀ R : Int, is_blocking_tile v ⟨27, R⟩ = false →
      is_blocking_tile v ⟨0, R⟩ = false)
    (hx0 : 0 ≤ px) (hx1 : px < 224) (hy0 : 24 ≤ py) (hy1 : py < 272)
    (hfree : is_blocking_tile v ⟨px / 8, py / 8⟩ = false)
    (hsum : ((4 : Int) - px % 8).natAbs + ((4 : Int) - py % 8).natAbs ≤ 4)
    (hcr : 4 < px % 8 → is_blocking_tile v (tile_right ⟨px / 8, py / 8⟩) = false)
    (hcl : px % 8 < 4 → is_blocking_tile v (tile_left ⟨px / 8, py / 8⟩) = false)
    (hcd : 4 < py % 8 → is_blocking_tile v ⟨px / 8, py / 8 + 1⟩ = false)
    (hcu : py % 8 < 4 → is_blocking_tile v ⟨px / 8, py / 8 - 1⟩ = false)
    (hgate : px % 8 = 4 → is_blocking_tile v (if px / 8 = 27 then ⟨27, py / 8⟩
      else ⟨px / 8 + 1, py / 8⟩) = false)
    (hY1 : 4 < py % 8 → Y = py - 1) (hY2 : py % 8 < 4 → Y = py + 1)
    (hY3 : py % 8 = 4 → Y = py) :
    PacInv v (wrap_pixel_x ⟨px + 1, Y⟩) := by
  have hYd : Y / 8 = py / 8 := by omega
  have hY0 : 24 ≤ Y := by omega
  have hY1' : Y < 272 := by omega
  have hw : wrap_pixel_x ⟨px + 1, Y⟩ = if (224 : Int) ≤ px + 1 then ⟨0, Y⟩ else ⟨px + 1, Y⟩ := by
    simp only [wrap_pixel_x, DISPLAY_PIXELS_X]
    split_ifs <;> first | rfl | (exfalso; omega)
  rw [hw]
  by_cases h224 : (224 : Int) ≤ px + 1
  · -- wrapping step from the right border: px = 223, so px % 8 = 7 and the
    -- perpendicular axis is already within one pixel of the centerline
    rw [if_pos h224]
    have hx223 : px = 223 := by omega
    have hx7 : px % 8 = 7 := by omega
    have htx : px / 8 = 27 := by omega
    have hY8 : Y % 8 = 4 := by omega
    have hcr' := hcr (by omega)
    rw [tile_right] at hcr'
    rw [if_pos (show (⟨px / 8, py / 8⟩ : Int2).x = 27 from htx)] at hcr'
    unfold PacInv
    dsimp only
    rw [pixel_to_tile_pos_eq 0 Y (by omega) (by omega)]
    refine ⟨by omega, by omega, by omega, by omega, ?_, by omega, ?_, ?_, ?_, ?_⟩
    · rw [int2_mk_eq (show (0 : Int) / 8 = 0 by omega) hYd]
      exact hcr'
    · intro h
      exact absurd h (by omega)
    · intro h
      rw [tile_left]
      rw [if_pos (show (⟨(0 : Int) / 8, Y / 8⟩ : Int2).x = 0 from by dsimp only; omega)]
      dsimp only
      rw [int2_mk_eq (show (27 : Int) = 27 from rfl) hYd, ← htx]
      exact hfree
    · intro h
      exact absurd h (by omega)
    · intro h
      exact absurd h (by omega)
  · -- ordinary step: no wrap
    rw [if_neg h224]
    have htd7 : px % 8 = 7 → (px + 1) / 8 = px / 8 + 1 := by omega
    have htdn : px % 8 ≠ 7 → (px + 1) / 8 = px / 8 := by omega
    unfold PacInv
    dsimp only
    rw [pixel_to_tile_pos_eq (px + 1) Y (by omega) (by omega)]
    refine ⟨by omega, by omega, by omega, by omega, ?_, by omega, ?_, ?_, ?_, ?_⟩
    · by_cases hx7 : px % 8 = 7
      · rw [int2_mk_eq (htd7 hx7) hYd]
        have hcr' := hcr (by omega)
        rw [tile_right] at hcr'
        rw [if_neg (show ¬ (⟨px / 8, py / 8⟩ : Int2).x = 27 from by dsimp only; omega)] at hcr'
        exact hcr'
      · rw [int2_mk_eq (htdn hx7) hYd]
        exact hfree
    · intro h
      by_cases hx7 : px % 8 = 7
      · exact absurd h (by omega)
      · have htd := htdn hx7
        rw [tile_right]
        by_cases h27 : px / 8 = 27
        · rw [if_pos (show (⟨(px + 1) / 8, Y / 8⟩ : Int2).x = 27 from by dsimp only; omega)]
          dsimp only
          rw [int2_mk_eq (show (0 : Int) = 0 from rfl) hYd]
          by_cases h4 : px % 8 = 4
          · have hg := hgate h4
            rw [if_pos h27] at hg
            exact hwrap (py / 8) hg
          · have hcr' := hcr (by omega)
            rw [tile_right] at hcr'
            rw [if_pos (show (⟨px / 8, py / 8⟩ : Int2).x = 27 from h27)] at hcr'
            exact hcr'
        · rw [if_neg (show ¬ (⟨(px + 1) / 8, Y / 8⟩ : Int2).x = 27 from by dsimp only; omega)]
          dsimp only
          rw [int2_mk_eq (show (px + 1) / 8 + 1 = px / 8 + 1 from by omega) hYd]
          by_cases h4 : px % 8 = 4
          · have hg := hgate h4
            rw [if_neg h27] at hg
            exact hg
          · have hcr' := hcr (by omega)
            rw [tile_right] at hcr'
            rw [if_neg (show ¬ (⟨px / 8, py / 8⟩ : Int2).x = 27 from h27)] at hcr'
            exact hcr'
    · intro h
      by_cases hx7 : px % 8 = 7
      · have htd := htd7 hx7
        rw [tile_left]
        rw [if_neg (show ¬ (⟨(px + 1) / 8, Y / 8⟩ : Int2).x = 0 from by dsimp only; omega)]
        dsimp only
        rw [int2_mk_eq (show (px + 1) / 8 - 1 = px / 8 from by omega) hYd]
        exact hfree
      · have htd := htdn hx7
        have hcl' := hcl (by omega)
        rw [tile_left] at hcl' ⊢
        by_cases h0 : px / 8 = 0
        · rw [if_pos (show (⟨px / 8, py / 8⟩ : Int2).x = 0 from h0)] at hcl'
          rw [if_pos (show (⟨(px + 1) / 8, Y / 8⟩ : Int2).x = 0 from by dsimp only; omega)]
          dsimp only
          rw [int2_mk_eq (show (27 : Int) = 27 from rfl) hYd]
          exact hcl'
        · rw [if_neg (show ¬ (⟨px / 8, py / 8⟩ : Int2).x = 0 from h0)] at hcl'
          rw [if_neg (show ¬ (⟨(px + 1) / 8, Y / 8⟩ : Int2).x = 0 from by dsimp only; omega)]
          dsimp only
          rw [int2_mk_eq (show (px + 1) / 8 - 1 = px / 8 - 1 from by omega) hYd]
          exact hcl'
    · intro h
      have hmy : 4 < py % 8 := by omega
      have hYm : Y = py - 1 := hY1 hmy
      have hx7 : px % 8 ≠ 7 := by omega
      rw [int2_mk_eq (htdn hx7) (show Y / 8 + 1 = py / 8 + 1 from by omega)]
      exact hcd (by omega)
    · intro h
      have hmy : py % 8 < 4 := by omega
      have hYm : Y = py + 1 := hY2 hmy
      have hx7 : px % 8 ≠ 7 := by omega
      rw [int2_mk_eq (htdn hx7) (show Y / 8 - 1 = py / 8 - 1 from by omega)]
      exact hcu (by omega)

/-- Core of the leftward cornering step: retreating one pixel to the left
(with the perpendicular drag outcome Y) preserves the invariant. -/
theorem pac_step_left_core (v : VRam) (px py Y : Int)
    (hwrap : ∀ R : Int, is_blocking_tile v ⟨0, R⟩ = false →
      is_blocking_tile v ⟨27, R⟩ = false)
    (hx0 : 0 ≤ px) (hx1 : px < 224) (hy0 : 24 ≤ py) (hy1 : py < 272)
    (hfree : is_blocking_tile v ⟨px / 8, py / 8⟩ = false)
    (hsum : ((4 : Int) - px % 8).natAbs + ((4 : Int) - py % 8).natAbs ≤ 4)
    (hcr : 4 < px % 8 → is_blocking_tile v (tile_right ⟨px / 8, py / 8⟩) = false)
    (hcl : px % 8 < 4 → is_blocking_tile v (tile_left ⟨px / 8, py / 8⟩) = false)
    (hcd : 4 < py % 8 → is_blocking_tile v ⟨px / 8, py / 8 + 1⟩ = false)
    (hcu : py % 8 < 4 → is_blocking_tile v ⟨px / 8, py / 8 - 1⟩ = false)
    (hgate : px % 8 = 4 → is_blocking_tile v (if px / 8 = 0 then ⟨0, py / 8⟩
      else ⟨px / 8 - 1, py / 8⟩) = false)
    (hY1 : 4 < py % 8 → Y = py - 1) (hY2 : py % 8 < 4 → Y = py + 1)
    (hY3 : py % 8 = 4 → Y = py) :
    PacInv v (wrap_pixel_x ⟨px - 1, Y⟩) := by
  have hYd : Y / 8 = py / 8 := by omega
  have hY0 : 24 ≤ Y := by omega
  have hY1' : Y < 272 := by omega
  have hw : wrap_pixel_x ⟨px - 1, Y⟩ = if px - 1 < 0 then ⟨223, Y⟩ else ⟨px - 1, Y⟩ := by
    simp only [wrap_pixel_x, DISPLAY_PIXELS_X]
    split_ifs <;> first | rfl | (exfalso; omega)
  rw [hw]
  by_cases hneg : px - 1 < 0
  · -- wrapping step from the left border: px = 0, so px % 8 = 0 and the
    -- perpendicular axis is exactly on the centerline
    rw [if_pos hneg]
    have hx00 : px = 0 := by omega
    have hm0 : px % 8 = 0 := by omega
    have htx : px / 8 = 0 := by omega
    have hY8 : Y % 8 = 4 := by omega
    have hcl' := hcl (by omega)
    rw [tile_left] at hcl'
    rw [if_pos (show (⟨px / 8, py / 8⟩ : Int2).x = 0 from htx)] at hcl'
    unfold PacInv
    dsimp only
    rw [pixel_to_tile_pos_eq 223 Y (by omega) (by omega)]
    refine ⟨by omega, by omega, by omega, by omega, ?_, by omega, ?_, ?_, ?_, ?_⟩
    · rw [int2_mk_eq (show (223 : Int) / 8 = 27 by omega) hYd]
      exact hcl'
    · intro h
      rw [tile_right]
      rw [if_pos (show (⟨(223 : Int) / 8, Y / 8⟩ : Int2).x = 27 from by dsimp only; omega)]
      dsimp only
      rw [int2_mk_eq (show (0 : Int) = 0 from rfl) hYd, ← htx]
      exact hfree
    · intro h
      exact absurd h (by omega)
    · intro h
      exact absurd h (by omega)
    · intro h
      exact absurd h (by omega)
  · -- ordinary step: no wrap
    rw [if_neg hneg]
    have htd0 : px % 8 = 0 → (px - 1) / 8 = px / 8 - 1 := by omega
    have htdn : px % 8 ≠ 0 → (px - 1) / 8 = px / 8 := by omega
    unfold PacInv
    dsimp only
    rw [pixel_to_tile_pos_eq (px - 1) Y (by omega) (by omega)]
    refine ⟨by omega, by omega, by omega, by omega, ?_, by omega, ?_, ?_, ?_, ?_⟩
    · by_cases hm0 : px % 8 = 0
      · rw [int2_mk_eq (htd0 hm0) hYd]
        have hcl' := hcl (by omega)
        rw [tile_left] at hcl'
        rw [if_neg (show ¬ (⟨px / 8, py / 8⟩ : Int2).x = 0 from by dsimp only; omega)] at hcl'
        exact hcl'
      · rw [int2_mk_eq (htdn hm0) hYd]
        exact hfree
    · intro h
      by_cases hm0 : px % 8 = 0
      · rw [tile_right]
        rw [if_neg (show ¬ (⟨(px - 1) / 8, Y / 8⟩ : Int2).x = 27 from by dsimp only; omega)]
        dsimp only
        rw [int2_mk_eq (show (px - 1) / 8 + 1 = px / 8 from by omega) hYd]
        exact hfree
      · have htd := htdn hm0
        have hcr' := hcr (by omega)
        rw [tile_right] at hcr' ⊢
        by_cases h27 : px / 8 = 27
        · rw [if_pos (show (⟨px / 8, py / 8⟩ : Int2).x = 27 from h27)] at hcr'
          rw [if_pos (show (⟨(px - 1) / 8, Y / 8⟩ : Int2).x = 27 from by dsimp only; omega)]
          dsimp only
          rw [int2_mk_eq (show (0 : Int) = 0 from rfl) hYd]
          exact hcr'
        · rw [if_neg (show ¬ (⟨px / 8, py / 8⟩ : Int2).x = 27 from h27)] at hcr'
          rw [if_neg (show ¬ (⟨(px - 1) / 8, Y / 8⟩ : Int2).x = 27 from by dsimp only; omega)]
          dsimp only
          rw [int2_mk_eq (show (px - 1) / 8 + 1 = px / 8 + 1 from by omega) hYd]
          exact hcr'
    · intro h
      by_cases hm0 : px % 8 = 0
      · exact absurd h (by omega)
      · have htd := htdn hm0
        rw [tile_left]
        by_cases h0 : px / 8 = 0
        · rw [if_pos (show (⟨(px - 1) / 8, Y / 8⟩ : Int2).x = 0 from by dsimp only; omega)]
          dsimp only
          rw [int2_mk_eq (show (27 : Int) = 27 from rfl) hYd]
          refine hwrap (py / 8) ?_
          rw [← h0]
          exact hfree
        · rw [if_neg (show ¬ (⟨(px - 1) / 8, Y / 8⟩ : Int2).x = 0 from by dsimp only; omega)]
          dsimp only
          rw [int2_mk_eq (show (px - 1) / 8 - 1 = px / 8 - 1 from by omega) hYd]
          by_cases h4 : px % 8 = 4
          · have hg := hgate h4
            rw [if_neg h0] at hg
            exact hg
          · have hcl' := hcl (by omega)
            rw [tile_left] at hcl'
            rw [if_neg (show ¬ (⟨px / 8, py / 8⟩ : Int2).x = 0 from h0)] at hcl'
            exact hcl'
    · intro h
      have hmy : 4 < py % 8 := by omega
      have hYm : Y = py - 1 := hY1 hmy
      have hm0 : px % 8 ≠ 0 := by omega
      rw [int2_mk_eq (htdn hm0) (show Y / 8 + 1 = py / 8 + 1 from by omega)]
      exact hcd (by omega)
    · intro h
      have hmy : py % 8 < 4 := by omega
      have hYm : Y = py + 1 := hY2 hmy
      have hm0 : px % 8 ≠ 0 := by omega
      rw [int2_mk_eq (htdn hm0) (show Y / 8 - 1 = py / 8 - 1 from by omega)]
      exact hcu (by omega)

/-- Core of the downward cornering step: descending one pixel (with the
horizontal drag outcome X) preserves the invariant. -/
theorem pac_step_down_core (v : VRam) (px py X : Int)
    (hx0 : 0 ≤ px) (hx1 : px < 224) (hy0 : 24 ≤ py) (hy1 : py < 272)
    (hyb : py / 8 ≤ 32)
    (hfree : is_blocking_tile v ⟨px / 8, py / 8⟩ = false)
    (hsum : ((4 : Int) - px % 8).natAbs + ((4 : Int) - py % 8).natAbs ≤ 4)
    (hcr : 4 < px % 8 → is_blocking_tile v (tile_right ⟨px / 8, py / 8⟩) = false)
    (hcl : px % 8 < 4 → is_blocking_tile v (tile_left ⟨px / 8, py / 8⟩) = false)
    (hcd : 4 < py % 8 → is_blocking_tile v ⟨px / 8, py / 8 + 1⟩ = false)
    (hcu : py % 8 < 4 → is_blocking_tile v ⟨px / 8, py / 8 - 1⟩ = false)
    (hgate : py % 8 = 4 → is_blocking_tile v ⟨px / 8, py / 8 + 1⟩ = false)
    (hX1 : 4 < px % 8 → X = px - 1) (hX2 : px % 8 < 4 → X = px + 1)
    (hX3 : px % 8 = 4 → X = px) :
    PacInv v (wrap_pixel_x ⟨X, py + 1⟩) := by
  have hXd : X / 8 = px / 8 := by omega
  have hX0 : 0 ≤ X := by omega
  have hX1' : X < 224 := by omega
  have hw : wrap_pixel_x ⟨X, py + 1⟩ = ⟨X, py + 1⟩ := by
    simp only [wrap_pixel_x, DISPLAY_PIXELS_X]
    split_ifs <;> first | rfl | (exfalso; omega)
  rw [hw]
  have htd7 : py % 8 = 7 → (py + 1) / 8 = py / 8 + 1 := by omega
  have htdn : py % 8 ≠ 7 → (py + 1) / 8 = py / 8 := by omega
  unfold PacInv
  dsimp only
  rw [pixel_to_tile_pos_eq X (py + 1) (by omega) (by omega)]
  refine ⟨by omega, by omega, by omega, by omega, ?_, by omega, ?_, ?_, ?_, ?_⟩
  · by_cases hm7 : py % 8 = 7
    · rw [int2_mk_eq hXd (htd7 hm7)]
      exact hcd (by omega)
    · rw [int2_mk_eq hXd (htdn hm7)]
      exact hfree
  · intro h
    have hm7 : py % 8 ≠ 7 := by omega
    rw [int2_mk_eq hXd (htdn hm7)]
    exact hcr (by omega)
  · intro h
    have hm7 : py % 8 ≠ 7 := by omega
    rw [int2_mk_eq hXd (htdn hm7)]
    exact hcl (by omega)
  · intro h
    by_cases hm7 : py % 8 = 7
    · exact absurd h (by omega)
    · rw [int2_mk_eq hXd (show (py + 1) / 8 + 1 = py / 8 + 1 from by omega)]
      by_cases h4 : py % 8 = 4
      · exact hgate h4
      · exact hcd (by omega)
  · intro h
    by_cases hm7 : py % 8 = 7
    · rw [int2_mk_eq hXd (show (py + 1) / 8 - 1 = py / 8 from by omega)]
      exact hfree
    · rw [int2_mk_eq hXd (show (py + 1) / 8 - 1 = py / 8 - 1 from by omega)]
      exact hcu (by omega)

/-- Core of the upward cornering step: climbing one pixel (with the horizontal
drag outcome X) preserves the invariant. -/
theorem pac_step_up_core (v : VRam) (px py X : Int)
    (hx0 : 0 ≤ px) (hx1 : px < 224) (hy0 : 24 ≤ py) (hy1 : py < 272)
    (hyt : 4 ≤ py / 8)
    (hfree : is_blocking_tile v ⟨px / 8, py / 8⟩ = false)
    (hsum : ((4 : Int) - px % 8).natAbs + ((4 : Int) - py % 8).natAbs ≤ 4)
    (hcr : 4 < px % 8 → is_blocking_tile v (tile_right ⟨px / 8, py / 8⟩) = false)
    (hcl : px % 8 < 4 → is_blocking_tile v (tile_left ⟨px / 8, py / 8⟩) = false)
    (hcd : 4 < py % 8 → is_blocking_tile v ⟨px / 8, py / 8 + 1⟩ = false)
    (hcu : py % 8 < 4 → is_blocking_tile v ⟨px / 8, py / 8 - 1⟩ = false)
    (hgate : py % 8 = 4 → is_blocking_tile v ⟨px / 8, py / 8 - 1⟩ = false)
    (hX1 : 4 < px % 8 → X = px - 1) (hX2 : px % 8 < 4 → X = px + 1)
    (hX3 : px % 8 = 4 → X = px) :
    PacInv v (wrap_pixel_x ⟨X, py - 1⟩) := by
  have hXd : X / 8 = px / 8 := by omega
  have hX0 : 0 ≤ X := by omega
  have hX1' : X < 224 := by omega
  have hw : wrap_pixel_x ⟨X, py - 1⟩ = ⟨X, py - 1⟩ := by
    simp only [wrap_pixel_x, DISPLAY_PIXELS_X]
    split_ifs <;> first | rfl | (exfalso; omega)
  rw [hw]
  have htd0 : py % 8 = 0 → (py - 1) / 8 = py / 8 - 1 := by omega
  have htdn : py % 8 ≠ 0 → (py - 1) / 8 = py / 8 := by omega
  unfold PacInv
  dsimp only
  rw [pixel_to_tile_pos_eq X (py - 1) (by omega) (by omega)]
  refine ⟨by omega, by omega, by omega, by omega, ?_, by omega, ?_, ?_, ?_, ?_⟩
  · by_cases hm0 : py % 8 = 0
    · rw [int2_mk_eq hXd (htd0 hm0)]
      exact hcu (by omega)
    · rw [int2_mk_eq hXd (htdn hm0)]
      exact hfree
  · intro h
    have hm0 : py % 8 ≠ 0 := by omega
    rw [int2_mk_eq hXd (htdn hm0)]
    exact hcr (by omega)
  · intro h
    have hm0 : py % 8 ≠ 0 := by omega
    rw [int2_mk_eq hXd (htdn hm0)]
    exact hcl (by omega)
  · intro h
    by_cases hm0 : py % 8 = 0
    · rw [int2_mk_eq hXd (show (py - 1) / 8 + 1 = py / 8 from by omega)]
      exact hfree
    · rw [int2_mk_eq hXd (show (py - 1) / 8 + 1 = py / 8 + 1 from by omega)]
      exact hcd (by omega)
  · intro h
    by_cases hm0 : py % 8 = 0
    · exact absurd h (by omega)
    · rw [int2_mk_eq hXd (show (py - 1) / 8 - 1 = py / 8 - 1 from by omega)]
      by_cases h4 : py % 8 = 4
      · exact hgate h4
      · exact hcu (by omega)

/-- The top playfield row (row 3) is wall everywhere. -/
theorem maze_row3 (C : Int) (h0 : 0 ≤ C) (h1 : C < 28) :
    is_blocking_tile vram0 ⟨C, 3⟩ = true := by
  interval_cases C <;> decide

/-- The bottom playfield row (row 33) is wall everywhere. -/
theorem maze_row33 (C : Int) (h0 : 0 ≤ C) (h1 : C < 28) :
    is_blocking_tile vram0 ⟨C, 33⟩ = true := by
  interval_cases C <;> decide

/-- The y component of `dist_to_tile_mid` in Euclidean terms (no constraint on
the x coordinate). -/
theorem dist_to_tile_mid_y (x y : Int) (hy : 0 ≤ y) :
    (dist_to_tile_mid ⟨x, y⟩).y = 4 - y % 8 := by
  simp [dist_to_tile_mid, TILE_WIDTH, tmod8_eq_emod, hy]

/-- The x component of `dist_to_tile_mid` in Euclidean terms (no constraint on
the y coordinate). -/
theorem dist_to_tile_mid_x (x y : Int) (hx : 0 ≤ x) :
    (dist_to_tile_mid ⟨x, y⟩).x = 4 - x % 8 := by
  simp [dist_to_tile_mid, TILE_WIDTH, tmod8_eq_emod, hx]

/-- Evaluating C `move` for a rightward cornering step. -/
theorem move_eval_right (px py : Int) (hy : 0 ≤ py) :
    move ⟨px, py⟩ Dir.RIGHT true =
      wrap_pixel_x (if 4 - py % 8 < 0 then ⟨px + 1, py - 1⟩
        else if 0 < 4 - py % 8 then ⟨px + 1, py + 1⟩ else ⟨px + 1, py⟩) := by
  simp only [move, dir_to_vec, add_i2, add_zero]
  rw [dist_to_tile_mid_y (px + 1) py hy]
  norm_num

/-- Evaluating C `move` for a leftward cornering step. -/
theorem move_eval_left (px py : Int) (hy : 0 ≤ py) :
    move ⟨px, py⟩ Dir.LEFT true =
      wrap_pixel_x (if 4 - py % 8 < 0 then ⟨px - 1, py - 1⟩
        else if 0 < 4 - py % 8 then ⟨px - 1, py + 1⟩ else ⟨px - 1, py⟩) := by
  simp only [move, dir_to_vec, add_i2, add_zero, ← sub_eq_add_neg]
  rw [dist_to_tile_mid_y (px - 1) py hy]
  norm_num

/-- Evaluating C `move` for a downward cornering step. -/
theorem move_eval_down (px py : Int) (hx : 0 ≤ px) :
    move ⟨px, py⟩ Dir.DOWN true =
      wrap_pixel_x (if 4 - px % 8 < 0 then ⟨px - 1, py + 1⟩
        else if 0 < 4 - px % 8 then ⟨px + 1, py + 1⟩ else ⟨px, py + 1⟩) := by
  simp only [move, dir_to_vec, add_i2, add_zero]
  rw [dist_to_tile_mid_x px (py + 1) hx]
  norm_num

/-- Evaluating C `move` for an upward cornering step. -/
theorem move_eval_up (px py : Int) (hx : 0 ≤ px) :
    move ⟨px, py⟩ Dir.UP true =
      wrap_pixel_x (if 4 - px % 8 < 0 then ⟨px - 1, py - 1⟩
        else if 0 < 4 - px % 8 then ⟨px + 1, py - 1⟩ else ⟨px, py - 1⟩) := by
  simp only [move, dir_to_vec, add_i2, add_zero, ← sub_eq_add_neg]
  rw [dist_to_tile_mid_x px (py - 1) hx]
  norm_num

/-- A pacman actor centered on its tile axis can step right only if the
clamped right-neighbour tile is free. -/
theorem can_move_gate_right (v : VRam) (px py : Int) (hx : 0 ≤ px) (hy : 0 ≤ py)
    (h4 : px % 8 = 4)
    (hcm : can_move v ⟨px, py⟩ Dir.RIGHT true = true) :
    is_blocking_tile v (clamped_tile_pos ⟨px / 8 + 1, py / 8⟩) = false := by
  cases hb : is_blocking_tile v (clamped_tile_pos ⟨px / 8 + 1, py / 8⟩)
  · rfl
  · exfalso
    have hf : can_move v ⟨px, py⟩ Dir.RIGHT true = false := by
      simp only [can_move, dir_to_vec, add_i2, add_zero]
      rw [pixel_to_tile_pos_eq px py hx hy, dist_to_tile_mid_x px py hx, hb]
      simp [h4]
    rw [hf] at hcm
    exact Bool.noConfusion hcm

/-- A pacman actor centered on its tile axis can step left only if the clamped
left-neighbour tile is free. -/
theorem can_move_gate_left (v : VRam) (px py : Int) (hx : 0 ≤ px) (hy : 0 ≤ py)
    (h4 : px % 8 = 4)
    (hcm : can_move v ⟨px, py⟩ Dir.LEFT true = true) :
    is_blocking_tile v (clamped_tile_pos ⟨px / 8 - 1, py / 8⟩) = false := by
  cases hb : is_blocking_tile v (clamped_tile_pos ⟨px / 8 - 1, py / 8⟩)
  · rfl
  · exfalso
    have hf : can_move v ⟨px, py⟩ Dir.LEFT true = false := by
      simp only [can_move, dir_to_vec, add_i2, add_zero, ← sub_eq_add_neg]
      rw [pixel_to_tile_pos_eq px py hx hy, dist_to_tile_mid_x px py hx, hb]
      simp [h4]
    rw [hf] at hcm
    exact Bool.noConfusion hcm

/-- A pacman actor centered on its tile axis can step down only if the clamped
lower-neighbour tile is free. -/
theorem can_move_gate_down (v : VRam) (px py : Int) (hx : 0 ≤ px) (hy : 0 ≤ py)
    (h4 : py % 8 = 4)
    (hcm : can_move v ⟨px, py⟩ Dir.DOWN true = true) :
    is_blocking_tile v (clamped_tile_pos ⟨px / 8, py / 8 + 1⟩) = false := by
  cases hb : is_blocking_tile v (clamped_tile_pos ⟨px / 8, py / 8 + 1⟩)
  · rfl
  · exfalso
    have hf : can_move v ⟨px, py⟩ Dir.DOWN true = false := by
      simp only [can_move, dir_to_vec, add_i2, add_zero]
      rw [pixel_to_tile_pos_eq px py hx hy, dist_to_tile_mid_y px py hy, hb]
      simp [h4]
    rw [hf] at hcm
    exact Bool.noConfusion hcm

/-- A pacman actor centered on its tile axis can step up only if the clamped
upper-neighbour tile is free. -/
theorem can_move_gate_up (v : VRam) (px py : Int) (hx : 0 ≤ px) (hy : 0 ≤ py)
    (h4 : py % 8 = 4)
    (hcm : can_move v ⟨px, py⟩ Dir.UP true = true) :
    is_blocking_tile v (clamped_tile_pos ⟨px / 8, py / 8 - 1⟩) = false := by
  cases hb : is_blocking_tile v (clamped_tile_pos ⟨px / 8, py / 8 - 1⟩)
  · rfl
  · exfalso
    have hf : can_move v ⟨px, py⟩ Dir.UP true = false := by
      simp only [can_move, dir_to_vec, add_i2, add_zero, ← sub_eq_add_neg]
      rw [pixel_to_tile_pos_eq px py hx hy, dist_to_tile_mid_y px py hy, hb]
      simp [h4]
    rw [hf] at hcm
    exact Bool.noConfusion hcm

/-- A cornering `move` step executed under a passing `can_move` check
preserves the pacman position invariant, on any playfield whose border
columns wrap openly and whose top and bottom rows are walls. -/
theorem pacman_move_preserves (v : VRam) (p : Int2) (d : Dir)
    (hwrapr : ∀ R : Int, is_blocking_tile v ⟨27, R⟩ = false →
      is_blocking_tile v ⟨0, R⟩ = false)
    (hwrapl : ∀ R : Int, is_blocking_tile v ⟨0, R⟩ = false →
      is_blocking_tile v ⟨27, R⟩ = false)
    (hrow3 : ∀ C : Int, 0 ≤ C → C < 28 → is_blocking_tile v ⟨C, 3⟩ = true)
    (hrow33 : ∀ C : Int, 0 ≤ C → C < 28 → is_blocking_tile v ⟨C, 33⟩ = true)
    (hinv : PacInv v p)
    (hcm : can_move v p d true = true) :
    PacInv v (move p d true) := by
  obtain ⟨px, py⟩ := p
  obtain ⟨hx0, hx1, hy0, hy1, hfree, hsum, hcr, hcl, hcd, hcu⟩ := hinv
  dsimp only at hx0 hx1 hy0 hy1 hsum hcr hcl hcd hcu
  rw [pixel_to_tile_pos_eq px py (by omega) (by omega)] at hfree hcr hcl hcd hcu
  dsimp only at hcd hcu
  cases d with
  | RIGHT =>
    rw [move_eval_right px py (by omega)]
    have hgate : px % 8 = 4 → is_blocking_tile v (if px / 8 = 27 then (⟨27, py / 8⟩ : Int2)
        else ⟨px / 8 + 1, py / 8⟩) = false := by
      intro h4
      have hg := can_move_gate_right v px py (by omega) (by omega) h4 hcm
      by_cases h27 : px / 8 = 27
      · rw [if_pos h27]
        rw [h27] at hg
        norm_num at hg
        rw [clamped_tile_pos_right_edge (py / 8) (by omega) (by omega)] at hg
        exact hg
      · rw [if_neg h27]
        rw [clamped_tile_pos_id ⟨px / 8 + 1, py / 8⟩ (by dsimp only; omega)
          (by dsimp only; omega) (by dsimp only; omega) (by dsimp only; omega)] at hg
        exact hg
    split_ifs with hd1 hd2
    · exact pac_step_right_core v px py (py - 1) hwrapr hx0 hx1 hy0 hy1 hfree hsum
        hcr hcl hcd hcu hgate (fun _ => rfl) (fun h => by omega) (fun h => by omega)
    · exact pac_step_right_core v px py (py + 1) hwrapr hx0 hx1 hy0 hy1 hfree hsum
        hcr hcl hcd hcu hgate (fun h => by omega) (fun _ => rfl) (fun h => by omega)
    · exact pac_step_right_core v px py py hwrapr hx0 hx1 hy0 hy1 hfree hsum
        hcr hcl hcd hcu hgate (fun h => by omega) (fun h => by omega) (fun _ => rfl)
  | LEFT =>
    rw [move_eval_left px py (by omega)]
    have hgate : px % 8 = 4 → is_blocking_tile v (if px / 8 = 0 then (⟨0, py / 8⟩ : Int2)
        else ⟨px / 8 - 1, py / 8⟩) = false := by
      intro h4
      have hg := can_move_gate_left v px py (by omega) (by omega) h4 hcm
      by_cases h0 : px / 8 = 0
      · rw [if_pos h0]
        rw [h0] at hg
        norm_num at hg
        rw [clamped_tile_pos_left_edge (py / 8) (by omega) (by omega)] at hg
        exact hg
      · rw [if_neg h0]
        rw [clamped_tile_pos_id ⟨px / 8 - 1, py / 8⟩ (by dsimp only; omega)
          (by dsimp only; omega) (by dsimp only; omega) (by dsimp only; omega)] at hg
        exact hg
    split_ifs with hd1 hd2
    · exact pac_step_left_core v px py (py - 1) hwrapl hx0 hx1 hy0 hy1 hfree hsum
        hcr hcl hcd hcu hgate (fun _ => rfl) (fun h => by omega) (fun h => by omega)
    · exact pac_step_left_core v px py (py + 1) hwrapl hx0 hx1 hy0 hy1 hfree hsum
        hcr hcl hcd hcu hgate (fun h => by omega) (fun _ => rfl) (fun h => by omega)
    · exact pac_step_left_core v px py py hwrapl hx0 hx1 hy0 hy1 hfree hsum
        hcr hcl hcd hcu hgate (fun h => by omega) (fun h => by omega) (fun _ => rfl)
  | DOWN =>
    rw [move_eval_down px py (by omega)]
    have hyb : py / 8 ≤ 32 := by
      by_contra hq
      have h33 : py / 8 = 33 := by omega
      rw [h33] at hfree
      rw [hrow33 (px / 8) (by omega) (by omega)] at hfree
      simp at hfree
    have hgate : py % 8 = 4 → is_blocking_tile v ⟨px / 8, py / 8 + 1⟩ = false := by
      intro h4
      have hg := can_move_gate_down v px py (by omega) (by omega) h4 hcm
      rw [clamped_tile_pos_id ⟨px / 8, py / 8 + 1⟩ (by dsimp only; omega)
        (by dsimp only; omega) (by dsimp only; omega) (by dsimp only; omega)] at hg
      exact hg
    split_ifs with hd1 hd2
    · exact pac_step_down_core v px py (px - 1) hx0 hx1 hy0 hy1 hyb hfree hsum
        hcr hcl hcd hcu hgate (fun _ => rfl) (fun h => by omega) (fun h => by omega)
    · exact pac_step_down_core v px py (px + 1) hx0 hx1 hy0 hy1 hyb hfree hsum
        hcr hcl hcd hcu hgate (fun h => by omega) (fun _ => rfl) (fun h => by omega)
    · exact pac_step_down_core v px py px hx0 hx1 hy0 hy1 hyb hfree hsum
        hcr hcl hcd hcu hgate (fun h => by omega) (fun h => by omega) (fun _ => rfl)
  | UP =>
    rw [move_eval_up px py (by omega)]
    have hyt : 4 ≤ py / 8 := by
      by_contra hq
      have h3 : py / 8 = 3 := by omega
      rw [h3] at hfree
      rw [hrow3 (px / 8) (by omega) (by omega)] at hfree
      simp at hfree
    have hgate : py % 8 = 4 → is_blocking_tile v ⟨px / 8, py / 8 - 1⟩ = false := by
      intro h4
      have hg := can_move_gate_up v px py (by omega) (by omega) h4 hcm
      rw [clamped_tile_pos_id ⟨px / 8, py / 8 - 1⟩ (by dsimp only; omega)
        (by dsimp only; omega) (by dsimp only; omega) (by dsimp only; omega)] at hg
      exact hg
    split_ifs with hd1 hd2
    · exact pac_step_up_core v px py (px - 1) hx0 hx1 hy0 hy1 hyt hfree hsum
        hcr hcl hcd hcu hgate (fun _ => rfl) (fun h => by omega) (fun h => by omega)
    · exact pac_step_up_core v px py (px + 1) hx0 hx1 hy0 hy1 hyt hfree hsum
        hcr hcl hcd hcu hgate (fun h => by omega) (fun _ => rfl) (fun h => by omega)
    · exact pac_step_up_core v px py px hx0 hx1 hy0 hy1 hyt hfree hsum
        hcr hcl hcd hcu hgate (fun h => by omega) (fun h => by omega) (fun _ => rfl)

/-- `pacman_move_step` preserves the pacman position invariant: the actor's
position moves only behind a passing `can_move` check. -/
theorem pacman_move_step_pos (gs : GameState) (a : Actor)
    (hwrapr : ∀ R : Int, is_blocking_tile gs.vram ⟨27, R⟩ = false →
      is_blocking_tile gs.vram ⟨0, R⟩ = false)
    (hwrapl : ∀ R : Int, is_blocking_tile gs.vram ⟨0, R⟩ = false →
      is_blocking_tile gs.vram ⟨27, R⟩ = false)
    (hrow3 : ∀ C : Int, 0 ≤ C → C < 28 → is_blocking_tile gs.vram ⟨C, 3⟩ = true)
    (hrow33 : ∀ C : Int, 0 ≤ C → C < 28 → is_blocking_tile gs.vram ⟨C, 33⟩ = true)
    (hinv : PacInv gs.vram a.pos) :
    PacInv gs.vram (pacman_move_step gs a).pos := by
  simp only [pacman_move_step]
  split_ifs with h1 h2
  · dsimp only
    exact pacman_move_preserves _ _ _ hwrapr hwrapl hrow3 hrow33 hinv h1
  · dsimp only
    exact pacman_move_preserves _ _ _ hwrapr hwrapl hrow3 hrow33 hinv h2
  · exact hinv

/-! ## Theorems for the claims -/

/-- Claim C4: arming a trigger with `start` at tick T makes `now` true at tick
T+1 and false at every other tick, `since` evaluated at tick T+1+k returns k
for every k, and `since` at any tick strictly before the armed tick returns
the DISABLED_TICKS sentinel. -/
theorem c4_trigger_start_semantics (T : Nat) (hT : T + 1 < U32_MOD) :
    now (T + 1) (start T) = true
    ∧ (∀ U : Nat, U ≠ T + 1 → now U (start T) = false)
    ∧ (∀ k : Nat, since (T + 1 + k) (start T) = k)
    ∧ (∀ U : Nat, U < T + 1 → since U (start T) = DISABLED_TICKS) := by
  have hs : start T = ⟨T + 1⟩ := by
    simp only [start, Nat.mod_eq_of_lt hT]
  refine ⟨?_, ?_, ?_, ?_⟩
  · simp [hs, now]
  · intro U hU
    simp [hs, now]
    omega
  · intro k
    simp only [hs, since]
    rw [if_pos (by omega)]
    omega
  · intro U hU
    simp only [hs, since]
    rw [if_neg (by omega)]

/-- Claim C4 witness at T = 100. -/
theorem c4_witness :
    now 101 (start 100) = true ∧ since 104 (start 100) = 3
    ∧ now 150 (start 100) = false ∧ since 100 (start 100) = DISABLED_TICKS := by
  obtain ⟨h1, h2, h3, h4⟩ := c4_trigger_start_semantics 100 (by norm_num [U32_MOD])
  exact ⟨h1, h3 3, h2 150 (by norm_num), h4 100 (by norm_num)⟩

/-- Claim C5: a trigger holding the DISABLED_TICKS sentinel never satisfies
`now`, `before`, `after` or `between` at any tick of a game session (any tick
strictly below the sentinel), for any argument n and any lo < hi. -/
theorem c5_trigger_disabled_semantics (t : Trigger) (ht : t.tick = DISABLED_TICKS)
    (now_tick n lo hi : Nat) (hsession : now_tick < DISABLED_TICKS) (hlohi : lo < hi) :
    now now_tick t = false ∧ before now_tick t n = false
    ∧ after now_tick t n = false ∧ between now_tick t lo hi = false := by
  have hs : since now_tick t = DISABLED_TICKS := by
    simp only [since, ht]
    rw [if_neg (by omega)]
  refine ⟨?_, ?_, ?_, ?_⟩
  · simp [now, ht]
    omega
  · simp [before, hs]
  · simp [after, hs]
  · simp [between, ht]

/-- Claim C5 witness on a concrete disabled trigger. -/
theorem c5_witness :
    now 7 disabled_timer = false ∧ before 7 disabled_timer 5 = false
    ∧ after 7 disabled_timer 5 = false ∧ between 7 disabled_timer 0 2 = false :=
  c5_trigger_disabled_semantics disabled_timer rfl 7 5 0 2
    (by norm_num [DISABLED_TICKS]) (by norm_num)

/-- Claim C8 counterexample: `move` applies the horizontal wraparound on every
row, not only on the tunnel row: an actor at pixel x = 0 on row y = 100 (tile
row 12, not the tunnel row 17) moving left wraps to x = 223. -/
theorem c8_counterexample :
    move ⟨0, 100⟩ Dir.LEFT false = ⟨223, 100⟩
    ∧ is_tunnel (pixel_to_tile_pos ⟨0, 100⟩) = false := by
  decide

/-- The wraparound step always leaves the x coordinate in
[0, DISPLAY_PIXELS_X). -/
theorem wrap_pixel_x_range (pos : Int2) :
    0 ≤ (wrap_pixel_x pos).x ∧ (wrap_pixel_x pos).x < 224 := by
  unfold wrap_pixel_x
  split_ifs with h1 h2 <;> simp_all [DISPLAY_PIXELS_X]

/-- Claim C8 (amended): moving left from pixel x = 0 wraps to
maze_pixel_width - 1 and moving right from maze_pixel_width - 1 wraps to 0 on
every row, and the wraparound keeps the x coordinate inside
[0, maze_pixel_width) for every position, direction and cornering flag — the
wrap is unconditional and row-independent, not restricted to the tunnel row. -/
theorem c8_amended :
    (∀ y : Int, move ⟨0, y⟩ Dir.LEFT false = ⟨223, y⟩)
    ∧ (∀ y : Int, move ⟨223, y⟩ Dir.RIGHT false = ⟨0, y⟩)
    ∧ (∀ (pos : Int2) (dir : Dir) (c : Bool),
        0 ≤ (move pos dir c).x ∧ (move pos dir c).x < 224) := by
  refine ⟨?_, ?_, ?_⟩
  · intro y
    simp [move, wrap_pixel_x, dir_to_vec, add_i2, DISPLAY_PIXELS_X]
  · intro y
    simp [move, wrap_pixel_x, dir_to_vec, add_i2, DISPLAY_PIXELS_X]
  · intro pos dir c
    simp only [move]
    exact wrap_pixel_x_range _

/-- Claim C1 counterexample: with the player2 flag set the active agent is
pacman1, but the chase-target recomputation for a CHASE ghost of type 0
(Blinky) sets the target to pacman2's tile, not to the tile of the active
player agent. -/
theorem c1_counterexample :
    gs_c1.player2 = true
    ∧ ghost_c1.state = .CHASE
    ∧ ghost_c1.type = .BLINKY
    ∧ (game_update_ghost_target gs_c1 ghost_c1).2.target_pos
        = pixel_to_tile_pos gs_c1.pacman2.actor.pos
    ∧ (game_update_ghost_target gs_c1 ghost_c1).2.target_pos
        ≠ pixel_to_tile_pos (active_pacman gs_c1).actor.pos := by
  decide

/-- Claim C1 (amended): on every tick on which a ghost of type 0 (Blinky) is
in CHASE state, the per-tick target recomputation sets that ghost's target
position to the tile currently containing pacman2's actor, regardless of the
player2 flag (the assignment of pacman1's tile is immediately overwritten);
this coincides with the active player agent's tile exactly when the player2
flag is false. -/
theorem c1_amended (gs : GameState) (g : Ghost)
    (h1 : g.state = .CHASE) (h2 : g.type = .BLINKY) :
    (game_update_ghost_target gs g).2.target_pos
      = pixel_to_tile_pos gs.pacman2.actor.pos
    ∧ (game_update_ghost_target gs g).1 = gs
    ∧ (gs.player2 = false →
        (game_update_ghost_target gs g).2.target_pos
          = pixel_to_tile_pos (active_pacman gs).actor.pos) := by
  refine ⟨?_, ?_, ?_⟩
  · simp [game_update_ghost_target, h1, h2]
  · simp [game_update_ghost_target, h1]
  · intro hp
    simp [game_update_ghost_target, h1, h2, active_pacman, hp]

/-- Claim C1 witness: the amended theorem applied to a concrete CHASE Blinky. -/
theorem c1_witness :
    (game_update_ghost_target gs_c1 ghost_c1).2.target_pos
      = pixel_to_tile_pos gs_c1.pacman2.actor.pos :=
  (c1_amended gs_c1 ghost_c1 rfl rfl).1

/-- Claim C9 counterexample: at the tick on which an EYES ghost within the
1-pixel tolerance of the house-entrance point transitions into ENTERHOUSE,
its frightened trigger is not disabled (it keeps its armed value). -/
theorem c9_counterexample :
    ghost_c9.state = .EYES
    ∧ nearequal_i2 ghost_c9.actor.pos ⟨ANTEPORTAS_X, ANTEPORTAS_Y⟩ 1 = true
    ∧ (game_update_ghost_state gs_base ghost_c9).2.state = .ENTERHOUSE
    ∧ (game_update_ghost_state gs_base ghost_c9).2.frightened = ⟨51⟩
    ∧ (game_update_ghost_state gs_base ghost_c9).2.frightened ≠ disabled_timer := by
  decide

/-- Claim C9 (amended): the frightened trigger of an eaten ghost is disabled
one state later than the claim says: not on the EYES to ENTERHOUSE transition
(which leaves the trigger untouched), but at the tick of the ENTERHOUSE to
LEAVEHOUSE transition (when the ghost reaches its house target slot within
the 1-pixel tolerance); since the frightened check is not consulted while the
ghost is in ENTERHOUSE, the ghost still cannot satisfy it again until the
player eats the next pill. -/
theorem c9_amended (gs : GameState) (g : Ghost)
    (h1 : g.state = .ENTERHOUSE)
    (h2 : nearequal_i2 g.actor.pos (ghost_house_target_pos g.type) 1 = true) :
    (game_update_ghost_state gs g).2.frightened = disabled_timer
    ∧ (game_update_ghost_state gs g).2.state = .LEAVEHOUSE
    ∧ (∀ (gs2 : GameState) (g2 : Ghost), g2.state = .EYES →
        (game_update_ghost_state gs2 g2).2.frightened = g2.frightened) := by
  refine ⟨?_, ?_, ?_⟩
  · simp [game_update_ghost_state, ghost_new_state, h1, h2]
  · simp [game_update_ghost_state, ghost_new_state, h1, h2]
  · intro gs2 g2 hg2
    simp only [game_update_ghost_state, ghost_new_state, hg2]
    split_ifs <;> simp

/-- Claim C9 witness: the amended theorem applied to a concrete ENTERHOUSE
ghost at its house target slot. -/
theorem c9_witness :
    (game_update_ghost_state gs_base ghost_c9w).2.frightened = disabled_timer :=
  (c9_amended gs_base ghost_c9w rfl (by decide)).1

/-- Claim C3: when player 1's agent eats the active bonus fruit, the game
awards the level's bonus score, clears the fruit, arms the fruit-eaten and
pill-eaten triggers, resets the ghosts-eaten-this-pill counter to 0 and arms
every ghost's frightened trigger, exactly as eating a pill does; the
player-2 fruit path awards the bonus score and clears the fruit but performs
none of those extra pill effects. -/
theorem c3_fruit_pill_effects (gs : GameState)
    (h1 : gs.active_fruit ≠ Fruit.FRUIT_NONE)
    (h2 : equal_i2 (pixel_to_tile_pos (add_i2 gs.pacman1.actor.pos ⟨4, 0⟩)) ⟨14, 20⟩ = true)
    (h3 : equal_i2 (pixel_to_tile_pos (add_i2 gs.pacman2.actor.pos ⟨4, 0⟩)) ⟨14, 20⟩ = true) :
    ((p1_eat_fruit_step gs).fruit_eaten = start gs.tick
     ∧ (p1_eat_fruit_step gs).score = (gs.score + (levelspec gs.round).bonus_score) % U32_MOD
     ∧ (p1_eat_fruit_step gs).active_fruit = Fruit.FRUIT_NONE
     ∧ (p1_eat_fruit_step gs).pill_eaten = start gs.tick
     ∧ (p1_eat_fruit_step gs).num_ghosts_eaten = 0
     ∧ (∀ t : GhostType, ((p1_eat_fruit_step gs).ghosts t).frightened = start gs.tick))
    ∧ ((p2_eat_fruit_step gs).fruit_eaten = start gs.tick
     ∧ (p2_eat_fruit_step gs).score = (gs.score + (levelspec gs.round).bonus_score) % U32_MOD
     ∧ (p2_eat_fruit_step gs).active_fruit = Fruit.FRUIT_NONE
     ∧ (p2_eat_fruit_step gs).pill_eaten = gs.pill_eaten
     ∧ (p2_eat_fruit_step gs).num_ghosts_eaten = gs.num_ghosts_eaten
     ∧ (∀ t : GhostType, ((p2_eat_fruit_step gs).ghosts t).frightened = (gs.ghosts t).frightened))
    ∧ (∀ (gsp : GameState) (tp : Int2), is_pill gsp.vram tp = true →
        ((eat_pill_step gsp tp).pill_eaten = start gsp.tick
         ∧ (eat_pill_step gsp tp).num_ghosts_eaten = 0
         ∧ ∀ t : GhostType, ((eat_pill_step gsp tp).ghosts t).frightened = start gsp.tick)) := by
  refine ⟨⟨?_, ?_, ?_, ?_, ?_, ?_⟩, ⟨?_, ?_, ?_, ?_, ?_, ?_⟩, ?_⟩
  · simp [p1_eat_fruit_step, frighten_all_ghosts, h1, h2]
  · simp [p1_eat_fruit_step, frighten_all_ghosts, h1, h2]
  · simp [p1_eat_fruit_step, frighten_all_ghosts, h1, h2]
  · simp [p1_eat_fruit_step, frighten_all_ghosts, h1, h2]
  · simp [p1_eat_fruit_step, frighten_all_ghosts, h1, h2]
  · intro t
    simp [p1_eat_fruit_step, frighten_all_ghosts, h1, h2]
  · simp [p2_eat_fruit_step, h1, h3]
  · simp [p2_eat_fruit_step, h1, h3]
  · simp [p2_eat_fruit_step, h1, h3]
  · simp [p2_eat_fruit_step, h1, h3]
  · simp [p2_eat_fruit_step, h1, h3]
  · intro t
    simp [p2_eat_fruit_step, h1, h3]
  · intro gsp tp hp
    refine ⟨?_, ?_, ?_⟩
    · simp [eat_pill_step, frighten_all_ghosts, hp, game_update_dots_eaten_tick]
    · simp [eat_pill_step, frighten_all_ghosts, hp, game_update_dots_eaten_tick]
    · intro t
      simp [eat_pill_step, frighten_all_ghosts, hp, game_update_dots_eaten_tick]

/-- Claim C3 witness: player 1 eating the cherries fruit in a concrete state
arms the pill trigger and frightens Blinky. -/
theorem c3_witness :
    (p1_eat_fruit_step gs_c3).pill_eaten = start gs_c3.tick
    ∧ (p1_eat_fruit_step gs_c3).num_ghosts_eaten = 0
    ∧ ((p1_eat_fruit_step gs_c3).ghosts .BLINKY).frightened = start gs_c3.tick
    ∧ (p2_eat_fruit_step gs_c3).pill_eaten = gs_c3.pill_eaten := by
  obtain ⟨hp1, hp2, _⟩ := c3_fruit_pill_effects gs_c3 (by decide) (by decide) (by decide)
  exact ⟨hp1.2.2.2.1, hp1.2.2.2.2.1, hp1.2.2.2.2.2 .BLINKY, hp2.2.2.2.1⟩

/-- Claim C6 counterexample: the ghosts-eaten-this-pill counter is not reset
only by pill consumption: player 1 eating the bonus fruit resets it from 3 to
0 in a state whose playfield contains no pill at all (the tile buffer is the
all-open one) and without the dots-eaten count changing. -/
theorem c6_counterexample :
    gs_c6.num_ghosts_eaten = 3
    ∧ (p1_eat_fruit_step gs_c6).num_ghosts_eaten = 0
    ∧ (p1_eat_fruit_step gs_c6).num_dots_eaten = gs_c6.num_dots_eaten
    ∧ gs_c6.vram = vram_empty
    ∧ is_pill gs_c6.vram ⟨14, 20⟩ = false := by
  exact ⟨rfl, by decide, by decide, rfl, by decide⟩

/-- Claim C6 (amended): whenever the collision check runs for the tile of a
FRIGHTENED ghost (the active player agent's tile equals that ghost's tile),
the ghost is converted to EYES, its eaten trigger and the shared ghost-eaten
trigger are armed, the ghosts-eaten counter increments, and the score grows
by 10 * 2^count with count the incremented counter — 20/40/80/160 for the
1st..4th ghost under one pill; the counter is reset to 0 by the next pill
consumption, but also by player 1 eating the bonus fruit and at round
initialization. -/
theorem c6_amended (gs : GameState) (t : GhostType) (tile_pos : Int2)
    (h1 : (gs.ghosts t).state = .FRIGHTENED)
    (h2 : equal_i2 tile_pos (pixel_to_tile_pos (gs.ghosts t).actor.pos) = true) :
    ((collide_one tile_pos gs t).ghosts t).state = .EYES
    ∧ ((collide_one tile_pos gs t).ghosts t).eaten = start gs.tick
    ∧ (collide_one tile_pos gs t).ghost_eaten = start gs.tick
    ∧ (collide_one tile_pos gs t).num_ghosts_eaten = (gs.num_ghosts_eaten + 1) % U8_MOD
    ∧ (collide_one tile_pos gs t).score
        = (gs.score + 10 * 2 ^ ((gs.num_ghosts_eaten + 1) % U8_MOD)) % U32_MOD
    ∧ (gs.num_ghosts_eaten = 0 →
        (collide_one tile_pos gs t).score = (gs.score + 20) % U32_MOD)
    ∧ (gs.num_ghosts_eaten = 1 →
        (collide_one tile_pos gs t).score = (gs.score + 40) % U32_MOD)
    ∧ (gs.num_ghosts_eaten = 2 →
        (collide_one tile_pos gs t).score = (gs.score + 80) % U32_MOD)
    ∧ (gs.num_ghosts_eaten = 3 →
        (collide_one tile_pos gs t).score = (gs.score + 160) % U32_MOD)
    ∧ (∀ (gsp : GameState) (tp : Int2), is_pill gsp.vram tp = true →
        (eat_pill_step gsp tp).num_ghosts_eaten = 0) := by
  refine ⟨?_, ?_, ?_, ?_, ?_, ?_, ?_, ?_, ?_, ?_⟩
  · simp [collide_one, set_ghost, h1, h2]
  · simp [collide_one, set_ghost, h1, h2]
  · simp [collide_one, set_ghost, h1, h2]
  · simp [collide_one, set_ghost, h1, h2]
  · simp [collide_one, set_ghost, h1, h2]
  · intro hc
    simp [collide_one, set_ghost, h1, h2, hc, U8_MOD, U32_MOD]
  · intro hc
    simp [collide_one, set_ghost, h1, h2, hc, U8_MOD, U32_MOD]
  · intro hc
    simp [collide_one, set_ghost, h1, h2, hc, U8_MOD, U32_MOD]
  · intro hc
    simp [collide_one, set_ghost, h1, h2, hc, U8_MOD, U32_MOD]
  · intro gsp tp hp
    simp [eat_pill_step, frighten_all_ghosts, hp]

/-- Claim C6 witness: eating frightened Blinky in a concrete state with the
acting agent on Blinky's tile. -/
theorem c6_witness :
    ((collide_one ⟨4, 14⟩ gs_c6w .BLINKY).ghosts .BLINKY).state = .EYES
    ∧ (collide_one ⟨4, 14⟩ gs_c6w .BLINKY).num_ghosts_eaten = 1
    ∧ (collide_one ⟨4, 14⟩ gs_c6w .BLINKY).score = (gs_c6w.score + 20) % U32_MOD := by
  obtain ⟨he, _, _, hn, _, h20, _⟩ := c6_amended gs_c6w .BLINKY ⟨4, 14⟩ (by decide) (by decide)
  exact ⟨he, hn.trans (by decide), h20 rfl⟩

/-- Claim C7 counterexample: the dot-counter mode does not switch back to
personal only at round-initialization boundaries: running the ordinary
per-tick actor update on an unfrozen mid-round state (global mode active,
global counter 32, Clyde in the house) deactivates global mode. -/
theorem c7_counterexample :
    gs_c7.freeze = 0
    ∧ gs_c7.global_dot_counter_active = true
    ∧ (gs_c7.ghosts .CLYDE).state = .HOUSE
    ∧ (game_update_actors gs_c7).global_dot_counter_active = false := by
  exact ⟨rfl, rfl, rfl, by decide⟩

/-- Claim C7 (amended): at any tick exactly one of the two dot-counter modes
is active (they are the two values of one flag, which the per-dot counter
update never changes); an eaten dot increments the shared global counter and
no personal counter when global mode is active, and in personal mode leaves
the global counter alone and increments at most one ghost's personal counter;
the mode switches to global at a round initialization after a life loss, but
switches back to personal not only at round-initialization boundaries: the
per-tick ghost state update deactivates global mode mid-round exactly when
Clyde is in the house with global mode active and the global counter at 32. -/
theorem c7_amended (gs : GameState) (g : Ghost) :
    ((game_update_ghosthouse_dot_counters gs).global_dot_counter_active
      = gs.global_dot_counter_active)
    ∧ (gs.global_dot_counter_active = true →
        (game_update_ghosthouse_dot_counters gs).global_dot_counter
            = (gs.global_dot_counter + 1) % U8_MOD
        ∧ ∀ t : GhostType,
            ((game_update_ghosthouse_dot_counters gs).ghosts t).dot_counter
              = (gs.ghosts t).dot_counter)
    ∧ (gs.global_dot_counter_active = false →
        (game_update_ghosthouse_dot_counters gs).global_dot_counter
            = gs.global_dot_counter
        ∧ ∀ t u : GhostType, t ≠ u →
            ((game_update_ghosthouse_dot_counters gs).ghosts t).dot_counter
              ≠ (gs.ghosts t).dot_counter →
            ((game_update_ghosthouse_dot_counters gs).ghosts u).dot_counter
              = (gs.ghosts u).dot_counter)
    ∧ ((game_update_ghost_state gs g).1.global_dot_counter_active
          = gs.global_dot_counter_active
        ∨ (g.type = .CLYDE ∧ g.state = .HOUSE
            ∧ gs.global_dot_counter_active = true ∧ gs.global_dot_counter = 32
            ∧ (game_update_ghost_state gs g).1.global_dot_counter_active = false)) := by
  refine ⟨?_, ?_, ?_, ?_⟩
  · simp only [game_update_ghosthouse_dot_counters, set_ghost]
    split_ifs <;> rfl
  · intro ha
    constructor
    · simp [game_update_ghosthouse_dot_counters, ha]
    · intro t
      simp [game_update_ghosthouse_dot_counters, ha]
  · intro ha
    constructor
    · simp only [game_update_ghosthouse_dot_counters, ha, Bool.false_eq_true,
        if_false, set_ghost]
      split_ifs <;> rfl
    · intro t u htu hchg
      obtain ⟨b, hb⟩ := ghosthouse_personal_bump gs ha
      by_cases hub : some u = b
      · exfalso
        by_cases htb : some t = b
        · exact htu (Option.some.inj (htb.trans hub.symm))
        · rw [hb t, if_neg htb] at hchg
          exact hchg rfl
      · rw [hb u, if_neg hub]
  · rw [game_update_ghost_state_fst]
    obtain ⟨a, ty, nd, tp, st, fr, ea, dc, dl⟩ := g
    cases st <;>
      simp only [ghost_new_state] <;>
      split_ifs <;> simp_all

/-- Claim C7 witness: the amended theorem at the concrete global-mode state. -/
theorem c7_witness :
    (game_update_ghosthouse_dot_counters gs_c7).global_dot_counter
      = (gs_c7.global_dot_counter + 1) % U8_MOD :=
  ((c7_amended gs_c7 (ghost_round_init .CLYDE)).2.1 rfl).1

/-- Claim C2 counterexample: on an unfrozen tick on which the pacman movement
gate stalls (tick divisible by 8), no agent is moved or tested for
interactions: the active agent (pacman1, flag set) stands on a dot, yet after
the actor update both agents' actors are unchanged and the dot is uneaten
(dots-eaten count and score unchanged) — so it is not the case that exactly
one agent is moved and tested on every unfrozen tick. -/
theorem c2_counterexample :
    gs_c2.freeze = 0
    ∧ gs_c2.player2 = true
    ∧ is_dot gs_c2.vram (pixel_to_tile_pos gs_c2.pacman1.actor.pos) = true
    ∧ (game_update_actors gs_c2).pacman1.actor = gs_c2.pacman1.actor
    ∧ (game_update_actors gs_c2).pacman2.actor = gs_c2.pacman2.actor
    ∧ (game_update_actors gs_c2).num_dots_eaten = gs_c2.num_dots_eaten
    ∧ (game_update_actors gs_c2).score = gs_c2.score
    ∧ is_dot (game_update_actors gs_c2).vram
        (pixel_to_tile_pos gs_c2.pacman1.actor.pos) = true := by
  exact ⟨rfl, rfl, by decide, by decide, by decide, by decide, by decide, by decide⟩

/-- Claim C2 (amended): the game state holds two player agents and a player2
flag set by keyboard input; on a tick on which the pacman movement gate
passes, exactly the flag-selected agent is processed: the actor update runs
the full selected block (movement, then dot, pill, fruit and ghost tests at
the moved agent's tile), the selected agent's actor becomes the moved actor,
and a dot on the tile the moved agent occupies is consumed (the dot count
increments); on gate-stalled ticks neither agent is moved; in every case the
other agent's actor (position, direction, animation counter) is left
unchanged by that tick's actor update. -/
theorem c2_amended (gs : GameState) :
    (gs.player2 = true → game_pacman_should_move gs = true →
      game_update_actors gs =
        game_update_one_ghost (game_update_one_ghost (game_update_one_ghost
          (game_update_one_ghost (p1_block gs) .BLINKY) .PINKY) .INKY) .CLYDE
      ∧ (game_update_actors gs).pacman1.actor = pacman_move_step gs gs.pacman1.actor
      ∧ (is_dot gs.vram
            (pixel_to_tile_pos (pacman_move_step gs gs.pacman1.actor).pos) = true →
          (game_update_actors gs).num_dots_eaten = (gs.num_dots_eaten + 1) % U8_MOD))
    ∧ (gs.player2 = false → game_pacman_should_move gs = true →
      game_update_actors gs =
        game_update_one_ghost (game_update_one_ghost (game_update_one_ghost
          (game_update_one_ghost (p2_block gs) .BLINKY) .PINKY) .INKY) .CLYDE
      ∧ (game_update_actors gs).pacman2.actor = pacman_move_step gs gs.pacman2.actor
      ∧ (is_dot gs.vram
            (pixel_to_tile_pos (pacman_move_step gs gs.pacman2.actor).pos) = true →
          (game_update_actors gs).num_dots_eaten = (gs.num_dots_eaten + 1) % U8_MOD))
    ∧ (gs.player2 = true → (game_update_actors gs).pacman2.actor = gs.pacman2.actor)
    ∧ (gs.player2 = false → (game_update_actors gs).pacman1.actor = gs.pacman1.actor)
    ∧ (game_pacman_should_move gs = false →
        (game_update_actors gs).pacman1.actor = gs.pacman1.actor
        ∧ (game_update_actors gs).pacman2.actor = gs.pacman2.actor) := by
  refine ⟨?_, ?_, ?_, ?_, ?_⟩
  · intro hp hsm
    have hblock : game_update_actors gs =
        game_update_one_ghost (game_update_one_ghost (game_update_one_ghost
          (game_update_one_ghost (p1_block gs) .BLINKY) .PINKY) .INKY) .CLYDE := by
      simp [game_update_actors, hp, hsm]
    refine ⟨hblock, ?_, ?_⟩
    · rw [hblock]
      simp [p1_block]
    · intro hd
      rw [hblock]
      simp only [game_update_one_ghost_num, p1_block]
      rw [pacman_ghost_collisions_num, p1_eat_fruit_step_num]
      have hd1 : is_dot ({ gs with
          pacman1 := ⟨pacman_move_step gs gs.pacman1.actor⟩ } : GameState).vram
          (pixel_to_tile_pos (pacman_move_step gs gs.pacman1.actor).pos) = true := hd
      rw [show eat_pill_step (eat_dot_step { gs with
            pacman1 := ⟨pacman_move_step gs gs.pacman1.actor⟩ }
            (pixel_to_tile_pos (pacman_move_step gs gs.pacman1.actor).pos))
            (pixel_to_tile_pos (pacman_move_step gs gs.pacman1.actor).pos)
          = eat_dot_step { gs with
            pacman1 := ⟨pacman_move_step gs gs.pacman1.actor⟩ }
            (pixel_to_tile_pos (pacman_move_step gs gs.pacman1.actor).pos) from by
        simp [eat_pill_step, eat_dot_step_vram_eq _ _ hd1, is_pill_after_clear]]
      rw [eat_dot_step_num_dot _ _ hd1]
  · intro hp hsm
    have hblock : game_update_actors gs =
        game_update_one_ghost (game_update_one_ghost (game_update_one_ghost
          (game_update_one_ghost (p2_block gs) .BLINKY) .PINKY) .INKY) .CLYDE := by
      simp [game_update_actors, hp, hsm]
    refine ⟨hblock, ?_, ?_⟩
    · rw [hblock]
      simp [p2_block]
    · intro hd
      rw [hblock]
      simp only [game_update_one_ghost_num, p2_block]
      rw [pacman_ghost_collisions_num, p2_eat_fruit_step_num]
      have hd1 : is_dot ({ gs with
          pacman2 := ⟨pacman_move_step gs gs.pacman2.actor⟩ } : GameState).vram
          (pixel_to_tile_pos (pacman_move_step gs gs.pacman2.actor).pos) = true := hd
      rw [show eat_pill_step (eat_dot_step { gs with
            pacman2 := ⟨pacman_move_step gs gs.pacman2.actor⟩ }
            (pixel_to_tile_pos (pacman_move_step gs gs.pacman2.actor).pos))
            (pixel_to_tile_pos (pacman_move_step gs gs.pacman2.actor).pos)
          = eat_dot_step { gs with
            pacman2 := ⟨pacman_move_step gs gs.pacman2.actor⟩ }
            (pixel_to_tile_pos (pacman_move_step gs gs.pacman2.actor).pos) from by
        simp [eat_pill_step, eat_dot_step_vram_eq _ _ hd1, is_pill_after_clear]]
      rw [eat_dot_step_num_dot _ _ hd1]
  · intro hp
    cases hsm : game_pacman_should_move gs <;>
      simp [game_update_actors, hp, hsm]
  · intro hp
    cases hsm : game_pacman_should_move gs <;>
      simp [game_update_actors, hp, hsm]
  · intro hsm
    constructor <;> simp [game_update_actors, hsm]

/-- Claim C2 witness: at a concrete gate-passing tick with the flag set,
pacman1 is moved, the dot on the entered tile is counted, and pacman2 is
untouched. -/
theorem c2_witness :
    (game_update_actors gs_c2w).pacman1.actor = pacman_move_step gs_c2w gs_c2w.pacman1.actor
    ∧ (game_update_actors gs_c2w).num_dots_eaten = (gs_c2w.num_dots_eaten + 1) % U8_MOD
    ∧ (game_update_actors gs_c2w).pacman2.actor = gs_c2w.pacman2.actor :=
  ⟨((c2_amended gs_c2w).1 rfl (by decide)).2.1,
   ((c2_amended gs_c2w).1 rfl (by decide)).2.2 (by decide),
   (c2_amended gs_c2w).2.2.1 rfl⟩

end Pacman
